import Mathlib

/-!
Shallow embedding of the warehouse digital-twin simulation core:
`warehouse-simulator.ts` (class `WarehouseSimulator`), `lane-navigator.ts`
(class `LaneNavigator`), the shared `types.ts`, and the dashboard utility
`pathValidation.ts`.

Modelling conventions, used consistently below:

* JavaScript `number` is modelled by `ℚ`; all source arithmetic on
  coordinates, speeds and lane progress is carried out exactly.
* `Math.sqrt` and `Math.atan2` are not rational-valued, so they are passed
  in explicitly as a `Geo` context (`sqrtq`, `atan2q`, `atan2degq`, the
  last one standing for the composite `Math.atan2(dy,dx) * (180/Math.PI)`).
  Where the source only *compares* Euclidean distances against a
  threshold or against each other (path validation, proximity detection)
  the embedding compares squared distances, which agrees with the source
  for non-negative thresholds because `Math.sqrt` is monotone; theorems
  carry the matching non-negativity hypotheses.
* Every `Math.random()` draw is an explicit parameter: a `ℚ` draw where
  the source uses the raw value, and a `ℕ` index taken modulo the list
  length where the source computes `Math.floor(Math.random() * len)`.
* JavaScript string falsiness (`undefined` and `''` are falsy) is modelled
  by `Option String` together with the small helpers below.
* The `id` (uuid), timestamp `t` and free-form `payload` of emitted events
  are ambient I/O values that the program never reads back; they are
  omitted from the embedded event record.
-/

/-- `types.ts` interface `LanePoint`: a 2-D point. -/
structure LanePoint where
  x : ℚ
  y : ℚ
deriving DecidableEq, Repr

/-- Squared Euclidean distance between two points (the quantity under the
`Math.sqrt` in the source's `distance` helpers). -/
def dist2 (p1 p2 : LanePoint) : ℚ :=
  (p1.x - p2.x) ^ 2 + (p1.y - p2.y) ^ 2

/-- Ambient real-valued primitives of the JavaScript runtime, passed in as
an explicit context.  `sqrtq` stands for `Math.sqrt`, `atan2q` for
`Math.atan2`, and `atan2degq` for `Math.atan2(dy,dx) * (180/Math.PI)`. -/
structure Geo where
  sqrtq : ℚ → ℚ
  atan2q : ℚ → ℚ → ℚ
  atan2degq : ℚ → ℚ → ℚ

/-- A `Geo` instance usable in concrete computations: `sqrtq` is the
identity (which agrees with `Math.sqrt` on the inputs `0` and `1` used by
the concrete witnesses below) and both angle primitives return `0`. -/
def gId : Geo :=
  { sqrtq := fun q => q, atan2q := fun _ _ => 0, atan2degq := fun _ _ => 0 }

/-- `types.ts` interface `Lane` (the optional `width` field is never read
by the simulation core and is omitted). -/
structure Lane where
  id : String
  points : List LanePoint
deriving DecidableEq, Repr

/-- `types.ts` interface `LaneNetwork` (the `units` tag is never read by
the simulation core and is omitted). -/
structure LaneNetwork where
  lanes : List Lane
deriving DecidableEq, Repr

/-- `types.ts`: `"forklift" | "pallet" | "worker"`. -/
inductive EntityType where
  | forklift
  | pallet
  | worker
deriving DecidableEq, Repr

/-- `types.ts` interface `EntityState`.  Optional string fields are
`Option String`; `nextLaneId` is declared in the interface but never
written or read by the simulator and is omitted. -/
structure EntityState where
  id : String
  type : EntityType
  x : ℚ
  y : ℚ
  speed : ℚ
  heading : ℚ
  targetSpeed : ℚ
  currentLaneId : Option String
  laneProgress : ℚ
  route : List String
  routeIndex : ℕ
  lastEventTime : ℤ
  zoneId : Option String
  targetPosition : Option LanePoint
deriving DecidableEq, Repr

/-- `types.ts` interface `SimulatorConfig` (transport-level fields
`wsPort`, `useSimulation`, `mqttUrl` omitted; entity counts kept). -/
structure SimulatorConfig where
  tickMs : ℚ
  simSpeed : ℚ
  forkliftCount : ℕ
  palletCount : ℕ
  workerCount : ℕ
  forkliftSpeedRange : ℚ × ℚ
  palletSpeedRange : ℚ × ℚ
  workerSpeedRange : ℚ × ℚ
  eventProbability : ℚ
  congestionThreshold : ℚ
  collisionRadius : ℚ
deriving Repr

/-- `types.ts`: the event kind union of `DTEvent.type`. -/
inductive DTEventType where
  | congestion
  | blocked
  | nearCollision
  | dwellExceeded
  | zoneBreach
  | reroute
deriving DecidableEq, Repr

/-- `types.ts` interface `DTEvent`, restricted to the fields the program
computes from entity state (see the module comment: `id`, `t` and
`payload` are ambient I/O values). -/
structure DTEvent where
  type : DTEventType
  assetIds : List String
  zoneId : String
deriving DecidableEq, Repr

/-- JavaScript truthiness coercion for `string | null | undefined` values:
`undefined`/`null` and the empty string are falsy. -/
def strOptTruthy : Option String → Bool
  | some s => s ≠ ""
  | none => false

/-- JavaScript `s || null` on a string: the empty string collapses to
`null`. -/
def strToOption (s : String) : Option String :=
  if s = "" then none else some s

/-- JavaScript `a || b` for an optional string `a` with string default
`b`. -/
def strOptD (o : Option String) (d : String) : String :=
  match o with
  | some s => if s = "" then d else s
  | none => d

/-- `WarehouseSimulator.lerp`. -/
def lerp (a b t : ℚ) : ℚ := a + (b - a) * t

/-- `WarehouseSimulator.lerpAngle`: interpolate along the shortest angular
path, handling the ±180° wrap. -/
def lerpAngle (a b t : ℚ) : ℚ :=
  let diff := b - a
  let diff1 := if diff > 180 then diff - 360 else diff
  let diff2 := if diff1 < -180 then diff1 + 360 else diff1
  a + diff2 * t

/-- `WarehouseSimulator.randomSpeed`: `range[0] + draw * (range[1] - range[0])`
where `draw` is the `Math.random()` value. -/
def randomSpeed (range : ℚ × ℚ) (draw : ℚ) : ℚ :=
  range.1 + draw * (range.2 - range.1)

/-! ## `lane-navigator.ts`: class `LaneNavigator`

The class state is the lane network passed to the constructor plus the
`laneConnections` map built once by `buildLaneConnections`; both are
explicit arguments here.  The connection map is an association list in
JavaScript `Map` insertion/overwrite order. -/

/-- `LaneNavigator.distance`: Euclidean distance via the ambient
`Math.sqrt`. -/
def LaneNavigator.distance (g : Geo) (p1 p2 : LanePoint) : ℚ :=
  g.sqrtq (dist2 p1 p2)

/-- The summation loop shared by both `calculateLaneLength` copies:
`for i in 0..points.length-2: length += distance(points[i], points[i+1])`. -/
def polylineLength (g : Geo) : List LanePoint → ℚ
  | [] => 0
  | [_] => 0
  | p :: q :: rest => LaneNavigator.distance g p q + polylineLength g (q :: rest)

/-- `LaneNavigator.calculateLaneLength`: the raw polyline length, with no
floor. -/
def LaneNavigator.calculateLaneLength (g : Geo) (lane : Lane) : ℚ :=
  polylineLength g lane.points

/-- `WarehouseSimulator.calculateLaneLength`: the same sum but floored,
`Math.max(length, 1)` ("Avoid division by zero"). -/
def WarehouseSimulator.calculateLaneLength (g : Geo) (lane : Lane) : ℚ :=
  max (polylineLength g lane.points) 1

/-- JavaScript `Map.set` on an association list: overwrite the entry if
the key is present, otherwise append it. -/
def mapSet (m : List (String × List String)) (k : String) (v : List String) :
    List (String × List String) :=
  if m.any (fun e => e.1 == k) then
    m.map (fun e => if e.1 == k then (k, v) else e)
  else
    m ++ [(k, v)]

/-- JavaScript `map.get(k) || []` (note that `Map.get` returns the stored
array itself, which is truthy even when empty). -/
def mapGetD (m : List (String × List String)) (k : String) : List String :=
  match m.find? (fun e => e.1 == k) with
  | some e => e.2
  | none => []

/-- The endpoint-proximity test of `buildLaneConnections` for one
candidate lane: any of the four endpoint pairs within the connection
radius (3.0).  Lanes without endpoints (`!otherStart || !otherEnd`) never
connect. -/
def LaneNavigator.endpointsClose (g : Geo) (laneStart laneEnd : LanePoint)
    (other : Lane) : Bool :=
  match other.points.head?, other.points.getLast? with
  | some otherStart, some otherEnd =>
      decide (LaneNavigator.distance g laneStart otherStart < 3) ||
      decide (LaneNavigator.distance g laneStart otherEnd < 3) ||
      decide (LaneNavigator.distance g laneEnd otherStart < 3) ||
      decide (LaneNavigator.distance g laneEnd otherEnd < 3)
  | _, _ => false

/-- `LaneNavigator.buildLaneConnections`: for every lane with endpoints,
record the ids of all *other* lanes with an endpoint within the connection
radius.  Lanes whose `points` array is empty are skipped (`continue`)
before the `set`, so they get no entry. -/
def LaneNavigator.buildLaneConnections (g : Geo) (net : LaneNetwork) :
    List (String × List String) :=
  net.lanes.foldl
    (fun m lane =>
      match lane.points.head?, lane.points.getLast? with
      | some laneStart, some laneEnd =>
          mapSet m lane.id
            ((net.lanes.filter (fun other =>
                decide (other.id ≠ lane.id) &&
                LaneNavigator.endpointsClose g laneStart laneEnd other)).map
              (fun other => other.id))
      | _, _ => m)
    []

/-- `LaneNavigator.getLane`: `lanes.find(l => l.id === laneId)`. -/
def LaneNavigator.getLane (net : LaneNetwork) (laneId : String) : Option Lane :=
  net.lanes.find? (fun l => l.id == laneId)

/-- `LaneNavigator.getAllLanes`. -/
def LaneNavigator.getAllLanes (net : LaneNetwork) : List Lane :=
  net.lanes

/-- The result record of `LaneNavigator.advanceAlongLane`. -/
structure Advancement where
  position : LanePoint
  heading : ℚ
  reachedEnd : Bool
deriving DecidableEq, Repr

/-- `LaneNavigator.getPositionAtProgress`.  Throws (`Except.error`) when
the lane has no points; otherwise interpolates the polyline at the given
fractional progress. -/
def LaneNavigator.getPositionAtProgress (lane : Lane) (progress : ℚ) :
    Except String LanePoint :=
  match lane.points.head?, lane.points.getLast? with
  | some firstPoint, some lastPoint =>
      if progress ≤ 0 then .ok firstPoint
      else if progress ≥ 1 then .ok lastPoint
      else
        let n : ℕ := lane.points.length - 1
        let segmentIndex : ℕ := (⌊progress * (n : ℚ)⌋).toNat
        let segmentProgress : ℚ := progress * (n : ℚ) - (segmentIndex : ℚ)
        if segmentIndex ≥ n then .ok lastPoint
        else
          match lane.points[segmentIndex]?, lane.points[segmentIndex + 1]? with
          | some s, some e =>
              .ok ⟨s.x + segmentProgress * (e.x - s.x),
                   s.y + segmentProgress * (e.y - s.y)⟩
          | _, _ => .ok lastPoint
  | _, _ => .error "Invalid lane"

/-- `LaneNavigator.getHeadingAtProgress`: `atan2` of the governing
segment, `0` for degenerate inputs. -/
def LaneNavigator.getHeadingAtProgress (g : Geo) (lane : Lane) (progress : ℚ) : ℚ :=
  if lane.points.length < 2 then 0
  else
    let segmentIndex : ℤ := ⌊progress * ((lane.points.length - 1 : ℕ) : ℚ)⌋
    let clampedIndex : ℤ := min segmentIndex ((lane.points.length : ℤ) - 2)
    if clampedIndex < 0 then 0
    else
      match lane.points[clampedIndex.toNat]?, lane.points[clampedIndex.toNat + 1]? with
      | some s, some e => g.atan2q (e.y - s.y) (e.x - s.x)
      | _, _ => 0

/-- `LaneNavigator.advanceAlongLane`: throws when the entity's current
lane id does not resolve to a lane; otherwise advances the progress by
`speed * deltaTime / laneLength` (the *unfloored* navigator length),
capped at 1. -/
def LaneNavigator.advanceAlongLane (g : Geo) (net : LaneNetwork)
    (entity : EntityState) (deltaTime : ℚ) : Except String Advancement :=
  match (match entity.currentLaneId with
         | some lid => LaneNavigator.getLane net lid
         | none => none) with
  | none => .error "Lane not found"
  | some lane =>
      let distanceToTravel := entity.speed * deltaTime
      let laneLength := LaneNavigator.calculateLaneLength g lane
      let progressIncrement := distanceToTravel / laneLength
      let newProgress := min 1 (entity.laneProgress + progressIncrement)
      match LaneNavigator.getPositionAtProgress lane newProgress with
      | .error msg => .error msg
      | .ok position =>
          .ok { position := position
                heading := LaneNavigator.getHeadingAtProgress g lane newProgress
                reachedEnd := newProgress ≥ 1 }

/-- `LaneNavigator.findReturnLane`: the first map entry whose connection
list contains the current lane and whose key differs from it. -/
def LaneNavigator.findReturnLane (m : List (String × List String))
    (currentLaneId : String) : Option String :=
  (m.find? (fun e => e.2.contains currentLaneId && e.1 ≠ currentLaneId)).map
    (fun e => e.1)

/-- `LaneNavigator.chooseNextLane`.  `pick` is the random index draw used
by `connections[Math.floor(Math.random() * connections.length)]`; the
final `|| null` collapses an empty-string id to `null`. -/
def LaneNavigator.chooseNextLane (m : List (String × List String)) (pick : ℕ)
    (currentLaneId : String) (entity : EntityState) : Option String :=
  let connections := mapGetD m currentLaneId
  if connections.length = 0 then
    LaneNavigator.findReturnLane m currentLaneId
  else
    let planned : Option String :=
      if entity.route.length > entity.routeIndex + 1 then
        let plannedNext := entity.route.getD (entity.routeIndex + 1) ""
        if plannedNext ≠ "" ∧ connections.contains plannedNext then some plannedNext
        else none
      else none
    match planned with
    | some s => some s
    | none => strToOption (connections.getD (pick % connections.length) "")

/-- The `validConnections` filter of `generateRandomRoute`: drop the lane
two hops back (`route[route.length - 2]`, here `prev`), everything passes
on the first hop. -/
def LaneNavigator.routeValidConnections (m : List (String × List String))
    (prev : Option String) (currentLane : String) : List String :=
  (mapGetD m currentLane).filter (fun conn =>
    match prev with
    | none => true
    | some p => conn ≠ p)

/-- The `nextLane` pick of one `generateRandomRoute` iteration: a random
element of `validConnections` when it is nonempty, otherwise of
`connections` (falling back to backtracking). -/
def LaneNavigator.routeNextChoice (m : List (String × List String))
    (picks : ℕ → ℕ) (step : ℕ) (prev : Option String) (currentLane : String) :
    String :=
  if (LaneNavigator.routeValidConnections m prev currentLane).length > 0 then
    (LaneNavigator.routeValidConnections m prev currentLane).getD
      (picks step % (LaneNavigator.routeValidConnections m prev currentLane).length) ""
  else
    (mapGetD m currentLane).getD (picks step % (mapGetD m currentLane).length) ""

/-- The loop body of `LaneNavigator.generateRandomRoute`, with the route
prefix represented by the pair (lane two hops back, current lane).
`picks step` is the random index drawn at iteration `step`; `if
(!nextLane) break` is the `strToOption … = none` case. -/
def LaneNavigator.genRouteAux (m : List (String × List String)) (picks : ℕ → ℕ) :
    ℕ → ℕ → Option String → String → List String
  | _, 0, _, _ => []
  | step, fuel + 1, prev, currentLane =>
      if (mapGetD m currentLane).length = 0 then []
      else
        match strToOption (LaneNavigator.routeNextChoice m picks step prev currentLane) with
        | none => []
        | some n => n :: LaneNavigator.genRouteAux m picks (step + 1) fuel (some currentLane) n

/-- `LaneNavigator.generateRandomRoute`: a random walk of at most
`length - 1` hops starting at `startLaneId`, avoiding the lane two hops
back when an alternative connection exists. -/
def LaneNavigator.generateRandomRoute (m : List (String × List String))
    (picks : ℕ → ℕ) (startLaneId : String) (length : ℕ) : List String :=
  startLaneId :: LaneNavigator.genRouteAux m picks 0 (length - 1) none startLaneId

/-! ## `warehouse-simulator.ts`: class `WarehouseSimulator`

Per-method embeddings.  The `config`, lane network, and the navigator's
connection map are explicit arguments; the random draws of each method are
explicit parameters bundled in small records. -/

/-- The strict path lines of `updateForkliftGridMovement` (one middle
horizontal line and seven vertical connectors). -/
inductive PathLine where
  | horizontal (y xStart xEnd : ℚ)
  | vertical (x yStart yEnd : ℚ)
deriving DecidableEq, Repr

/-- The `pathLines` array defined inside `updateForkliftGridMovement`. -/
def WarehouseSimulator.pathLines : List PathLine :=
  [ .horizontal 11.2 4 44,
    .vertical 4 3.2 19.2,
    .vertical 12.5 3.2 19.2,
    .vertical 18.9 3.2 19.2,
    .vertical 25.3 3.2 19.2,
    .vertical 31.7 3.2 19.2,
    .vertical 38.1 3.2 19.2,
    .vertical 44 3.2 19.2 ]

/-- `WarehouseSimulator.isOnStrictPath` (tolerance 0.1). -/
def WarehouseSimulator.isOnStrictPath (entity : EntityState) : Bool :=
  WarehouseSimulator.pathLines.any (fun line =>
    match line with
    | .horizontal y xStart xEnd =>
        decide (|entity.y - y| < 0.1) && decide (entity.x ≥ xStart) &&
        decide (entity.x ≤ xEnd)
    | .vertical x yStart yEnd =>
        decide (|entity.x - x| < 0.1) && decide (entity.y ≥ yStart) &&
        decide (entity.y ≤ yEnd))

/-- `WarehouseSimulator.snapToNearestPath` (the simulator-internal copy):
snap to the candidate minimising `|dy| + |dx-clamped|` (an exact rational
quantity, no square root involved).  `minDistance` starts at `Infinity`,
modelled by `Option ℚ` with `none` meaning "no candidate seen yet". -/
def WarehouseSimulator.snapToNearestPath (entity : EntityState) : EntityState :=
  let best :=
    WarehouseSimulator.pathLines.foldl
      (fun (st : LanePoint × Option ℚ) line =>
        let pd : LanePoint × ℚ :=
          match line with
          | .horizontal y xStart xEnd =>
              let clampedX := max xStart (min xEnd entity.x)
              (⟨clampedX, y⟩, |entity.y - y| + |entity.x - clampedX|)
          | .vertical x yStart yEnd =>
              let clampedY := max yStart (min yEnd entity.y)
              (⟨x, clampedY⟩, |entity.x - x| + |entity.y - clampedY|)
        match st.2 with
        | none => (pd.1, some pd.2)
        | some minDistance =>
            if pd.2 < minDistance then (pd.1, some pd.2) else st)
      (⟨entity.x, entity.y⟩, none)
  { entity with x := best.1.x, y := best.1.y }

/-- `WarehouseSimulator.getCurrentPathLine` (tolerance 0.2). -/
def WarehouseSimulator.getCurrentPathLine (entity : EntityState) : Option PathLine :=
  WarehouseSimulator.pathLines.find? (fun line =>
    match line with
    | .horizontal y xStart xEnd =>
        decide (|entity.y - y| < 0.2) && decide (entity.x ≥ xStart - 0.2) &&
        decide (entity.x ≤ xEnd + 0.2)
    | .vertical x yStart yEnd =>
        decide (|entity.x - x| < 0.2) && decide (entity.y ≥ yStart - 0.2) &&
        decide (entity.y ≤ yEnd + 0.2))

/-- `WarehouseSimulator.hasReachedTarget` (distance threshold 0.5, via the
ambient square root). -/
def WarehouseSimulator.hasReachedTarget (g : Geo) (entity : EntityState)
    (target : LanePoint) : Bool :=
  decide (g.sqrtq ((entity.x - target.x) ^ 2 + (entity.y - target.y) ^ 2) < 0.5)

/-- Random draws of `setPathLineTarget`: the direction draw
(`Math.random() > 0.5 ? 1 : -1`) and the magnitude draw. -/
structure TargetRand where
  dirDraw : ℚ
  magDraw : ℚ

/-- `WarehouseSimulator.setPathLineTarget`: pick a random target further
along the current path line, clamped to the line's extent.  No-op when no
current line is found. -/
def WarehouseSimulator.setPathLineTarget (rnd : TargetRand)
    (entity : EntityState) : EntityState :=
  match WarehouseSimulator.getCurrentPathLine entity with
  | none => entity
  | some line =>
      let direction : ℚ := if rnd.dirDraw > 0.5 then 1 else -1
      let targetPosition : LanePoint :=
        match line with
        | .horizontal y xStart xEnd =>
            let targetX := entity.x + direction * (5 + rnd.magDraw * 10)
            ⟨max xStart (min xEnd targetX), y⟩
        | .vertical x yStart yEnd =>
            let targetY := entity.y + direction * (3 + rnd.magDraw * 6)
            ⟨x, max yStart (min yEnd targetY)⟩
      { entity with targetPosition := some targetPosition }

/-- Random/ambient draws of one `updateForkliftGridMovement` call:
the target-selection draws and the value of
`Math.sin(Date.now() * 0.001)`. -/
structure GridRand where
  target : TargetRand
  sinVal : ℚ

/-- `WarehouseSimulator.updateForkliftGridMovement`: strict-path grid
motion for forklifts. -/
def WarehouseSimulator.updateForkliftGridMovement (g : Geo) (rnd : GridRand)
    (entity : EntityState) (deltaTime : ℚ) : EntityState :=
  let speed := entity.speed
  let distance := speed * deltaTime
  if ¬ WarehouseSimulator.isOnStrictPath entity then
    WarehouseSimulator.setPathLineTarget rnd.target
      (WarehouseSimulator.snapToNearestPath entity)
  else
    let e1 :=
      if entity.targetPosition.isNone ||
         (match entity.targetPosition with
          | some t => WarehouseSimulator.hasReachedTarget g entity t
          | none => false) then
        WarehouseSimulator.setPathLineTarget rnd.target entity
      else entity
    let e2 :=
      match e1.targetPosition with
      | some targetPosition =>
          let dx := targetPosition.x - e1.x
          let dy := targetPosition.y - e1.y
          let distanceToTarget := g.sqrtq (dx * dx + dy * dy)
          if distanceToTarget > 0.05 then
            let moveX := dx / distanceToTarget * distance
            let moveY := dy / distanceToTarget * distance
            let e' := { e1 with x := e1.x + moveX, y := e1.y + moveY }
            let targetHeading := g.atan2degq dy dx
            let e'' := { e' with heading := lerpAngle e'.heading targetHeading 0.1 }
            WarehouseSimulator.snapToNearestPath e''
          else e1
      | none => e1
    let speedVariation := 0.1 * rnd.sinVal
    { e2 with speed := lerp e2.speed (e2.targetSpeed + speedVariation) 0.02 }

/-- `WarehouseSimulator.getZoneFromPosition`: the inner x-banding shared
by the three y-bands; `none` models falling through to the final
`return 'main-aisle'`. -/
def WarehouseSimulator.zoneBand (tag : String) (x : ℚ) : Option String :=
  if 6.4 ≤ x ∧ x < 14.4 then some (tag ++ "1")
  else if 14.4 ≤ x ∧ x < 22.4 then some (tag ++ "2")
  else if 22.4 ≤ x ∧ x < 30.4 then some (tag ++ "3")
  else if 30.4 ≤ x ∧ x < 38.4 then some (tag ++ "4")
  else if 38.4 ≤ x ∧ x < 46.4 then some (tag ++ "5")
  else if 46.4 ≤ x then some (tag ++ "6")
  else none

/-- `WarehouseSimulator.getZoneFromPosition`: position → zone id, with
`'main-aisle'` as the fall-through default. -/
def WarehouseSimulator.getZoneFromPosition (x y : ℚ) : String :=
  let band : Option String :=
    if y < 8.8 then WarehouseSimulator.zoneBand "A" x
    else if 13.6 ≤ y ∧ y < 20.8 then WarehouseSimulator.zoneBand "B" x
    else if 20.8 ≤ y then WarehouseSimulator.zoneBand "P" x
    else none
  band.getD "main-aisle"

/-- The speed range the `transitionToNextLane` tail picks for the entity's
type. -/
def WarehouseSimulator.speedRangeFor (config : SimulatorConfig)
    (t : EntityType) : ℚ × ℚ :=
  match t with
  | .forklift => config.forkliftSpeedRange
  | .worker => config.workerSpeedRange
  | .pallet => config.palletSpeedRange

/-- Random draws of one `transitionToNextLane` call: the index draw inside
`chooseNextLane`, the index draws of a possible `generateRandomRoute`
call, the `Math.random() < 0.3` draw and the `randomSpeed` draw. -/
structure TransitionRand where
  pick : ℕ
  routePicks : ℕ → ℕ
  speedChangeDraw : ℚ
  speedDraw : ℚ

/-- `WarehouseSimulator.transitionToNextLane`: advance the route cursor if
possible, validate or re-choose the next lane, regenerate the route at a
dead end, then enter the chosen lane at progress 0 and occasionally
re-sample the target speed. -/
def WarehouseSimulator.transitionToNextLane (net : LaneNetwork)
    (m : List (String × List String)) (config : SimulatorConfig)
    (rnd : TransitionRand) (entity : EntityState) : EntityState :=
  if ¬ strOptTruthy entity.currentLaneId then entity
  else
    let cur := strOptD entity.currentLaneId ""
    let step1 : EntityState × Option String :=
      if entity.routeIndex < entity.route.length - 1 then
        let e' := { entity with routeIndex := entity.routeIndex + 1 }
        (e', strToOption (e'.route.getD e'.routeIndex ""))
      else (entity, none)
    let e1 := step1.1
    let next2 : Option String :=
      match step1.2 with
      | some s =>
          if (LaneNavigator.getLane net s).isSome then some s
          else LaneNavigator.chooseNextLane m rnd.pick cur e1
      | none => LaneNavigator.chooseNextLane m rnd.pick cur e1
    let step3 : EntityState × String :=
      match next2 with
      | some s => (e1, s)
      | none =>
          let newRoute := LaneNavigator.generateRandomRoute m rnd.routePicks cur 5
          let e' := { e1 with route := newRoute, routeIndex := 0 }
          (e', match strToOption (newRoute.getD 1 "") with
               | some s => s
               | none => cur)
    let e3 := { step3.1 with currentLaneId := some step3.2, laneProgress := 0 }
    if rnd.speedChangeDraw < 0.3 then
      let ts := randomSpeed (WarehouseSimulator.speedRangeFor config entity.type) rnd.speedDraw
      { e3 with targetSpeed := ts }
    else e3

/-- Random draws of one `updateLaneBasedMovement` call: the transition
draws (used only when a transition fires) and the speed-jitter draw. -/
structure LaneMoveRand where
  trans : TransitionRand
  noiseDraw : ℚ

/-- `WarehouseSimulator.updateLaneBasedMovement`: lane-progress motion for
non-forklift entities.  The `advanceAlongLane` exception propagates
(`Except.error`) to the caller's per-entity catch. -/
def WarehouseSimulator.updateLaneBasedMovement (g : Geo) (net : LaneNetwork)
    (m : List (String × List String)) (config : SimulatorConfig)
    (rnd : LaneMoveRand) (entity : EntityState) (deltaTime : ℚ) :
    Except String EntityState :=
  if ¬ strOptTruthy entity.currentLaneId then .ok entity
  else
    match LaneNavigator.advanceAlongLane g net entity deltaTime with
    | .error msg => .error msg
    | .ok advancement =>
        let e1 := { entity with
          x := advancement.position.x
          y := advancement.position.y
          heading := advancement.heading }
        let distanceToTravel := e1.speed * deltaTime
        let e2 :=
          match (match e1.currentLaneId with
                 | some lid => LaneNavigator.getLane net lid
                 | none => none) with
          | some currentLane =>
              let laneLength := WarehouseSimulator.calculateLaneLength g currentLane
              { e1 with laneProgress := e1.laneProgress + distanceToTravel / laneLength }
          | none => e1
        let e3 :=
          if advancement.reachedEnd || e2.laneProgress ≥ 1 then
            WarehouseSimulator.transitionToNextLane net m config rnd.trans e2
          else e2
        .ok { e3 with
          speed := lerp e3.speed (e3.targetSpeed + (rnd.noiseDraw - 0.5) * 0.2) 0.1 }

/-- The near-collision test of `checkProximityEvents` for one entity pair:
`distance < collisionRadius && (entity1.speed > 0.1 || entity2.speed > 0.1)`.
The distance comparison is in squared form (see the module comment), which
agrees with the source whenever `collisionRadius ≥ 0`. -/
def WarehouseSimulator.nearCollisionCond (collisionRadius : ℚ)
    (entity1 entity2 : EntityState) : Bool :=
  decide (dist2 ⟨entity1.x, entity1.y⟩ ⟨entity2.x, entity2.y⟩ <
            collisionRadius * collisionRadius) &&
  (decide (entity1.speed > 0.1) || decide (entity2.speed > 0.1))

/-- The near-collision event pushed by `checkProximityEvents` (the payload
with rounded distance and closing speed is ambient data, omitted). -/
def WarehouseSimulator.mkNearCollisionEvent (entity1 entity2 : EntityState) :
    DTEvent :=
  { type := .nearCollision
    assetIds := [entity1.id, entity2.id]
    zoneId := strOptD entity1.zoneId (strOptD entity2.zoneId "unknown") }

/-- `entity.targetSpeed *= 0.5`. -/
def WarehouseSimulator.halveTargetSpeed (e : EntityState) : EntityState :=
  { e with targetSpeed := e.targetSpeed * 0.5 }

/-- The inner loop (`j = i+1 .. n-1`) of the near-collision scan:
check `entity1` (already carrying any halvings from earlier pairs of this
row) against each later entity in order, halving both target speeds and
pushing an event for each qualifying pair. -/
def WarehouseSimulator.collideRow (collisionRadius : ℚ) (entity1 : EntityState) :
    List EntityState → EntityState × List EntityState × List DTEvent
  | [] => (entity1, [], [])
  | entity2 :: rest =>
      if WarehouseSimulator.nearCollisionCond collisionRadius entity1 entity2 then
        let out := WarehouseSimulator.collideRow collisionRadius
          (WarehouseSimulator.halveTargetSpeed entity1) rest
        (out.1, WarehouseSimulator.halveTargetSpeed entity2 :: out.2.1,
         WarehouseSimulator.mkNearCollisionEvent entity1 entity2 :: out.2.2)
      else
        let out := WarehouseSimulator.collideRow collisionRadius entity1 rest
        (out.1, entity2 :: out.2.1, out.2.2)

/-- The inner loop touches each later entity exactly once, so it keeps
the list length (used for the termination of `collideAll`). -/
theorem WarehouseSimulator.collideRow_length (collisionRadius : ℚ)
    (entity1 : EntityState) (l : List EntityState) :
    (WarehouseSimulator.collideRow collisionRadius entity1 l).2.1.length = l.length := by
  induction l generalizing entity1 with
  | nil => rfl
  | cons h t ih =>
      simp only [WarehouseSimulator.collideRow]
      split <;> simp [ih]

/-- The outer loop (`i = 0 .. n-1`) of the near-collision scan of
`checkProximityEvents`, threading the in-place `targetSpeed` mutations. -/
def WarehouseSimulator.collideAll (collisionRadius : ℚ) :
    List EntityState → List EntityState × List DTEvent
  | [] => ([], [])
  | entity1 :: rest =>
      let row := WarehouseSimulator.collideRow collisionRadius entity1 rest
      let out := WarehouseSimulator.collideAll collisionRadius row.2.1
      (row.1 :: out.1, row.2.2 ++ out.2)
termination_by l => l.length
decreasing_by
  simp [WarehouseSimulator.collideRow_length]

/-- One step of the occupancy-map construction of `checkProximityEvents`:
append the entity's id to its (truthy) current lane's list, creating the
entry on first sight (JavaScript `Map` insertion order). -/
def WarehouseSimulator.occInsert (m : List (String × List String))
    (entity : EntityState) : List (String × List String) :=
  match entity.currentLaneId with
  | some lid =>
      if lid = "" then m
      else if m.any (fun e => e.1 == lid) then
        m.map (fun e => if e.1 == lid then (e.1, e.2 ++ [entity.id]) else e)
      else m ++ [(lid, [entity.id])]
  | none => m

/-- The occupancy-map construction of `checkProximityEvents`: group entity
ids by (truthy) current lane id, in `Map` insertion order. -/
def WarehouseSimulator.laneOccupancy (entities : List EntityState) :
    List (String × List String) :=
  entities.foldl WarehouseSimulator.occInsert []

/-- One occupancy-map entry's contribution to the congestion scan: an
event listing all the lane's occupants when their number meets or exceeds
the configured threshold. -/
def WarehouseSimulator.congEmit (congestionThreshold : ℚ)
    (entry : String × List String) : Option DTEvent :=
  if (entry.2.length : ℚ) ≥ congestionThreshold then
    some { type := .congestion, assetIds := entry.2, zoneId := entry.1 }
  else none

/-- The congestion scan of `checkProximityEvents`: one event per lane
whose occupancy meets or exceeds the configured threshold, listing all
occupants. -/
def WarehouseSimulator.congestionEvents (congestionThreshold : ℚ)
    (entities : List EntityState) : List DTEvent :=
  (WarehouseSimulator.laneOccupancy entities).filterMap
    (WarehouseSimulator.congEmit congestionThreshold)

/-- `WarehouseSimulator.checkProximityEvents`: the near-collision scan
(which mutates target speeds) followed by the congestion scan over the
resulting entity set; returns the updated entities and all events in
emission order. -/
def WarehouseSimulator.checkProximityEvents (collisionRadius congestionThreshold : ℚ)
    (entities : List EntityState) : List EntityState × List DTEvent :=
  let collided := WarehouseSimulator.collideAll collisionRadius entities
  (collided.1,
   collided.2 ++ WarehouseSimulator.congestionEvents congestionThreshold collided.1)

/-- Random draws of one `resetEntityToValidLane` call: the grid-position
index draw (forklift branch), the lane index draw and the route draws
(lane branch). -/
structure ResetRand where
  gridPick : ℕ
  lanePick : ℕ
  routePicks : ℕ → ℕ

/-- `WarehouseSimulator.resetEntityToValidLane`: recovery after a failed
per-entity update.  Forklifts go to one of four hardcoded safe grid
positions with their target cleared; other entities go to the start of a
randomly chosen lane with progress 0 and a fresh 5-lane route (no-op if
the network has no usable lane). -/
def WarehouseSimulator.resetEntityToValidLane (net : LaneNetwork)
    (m : List (String × List String)) (rnd : ResetRand) (entity : EntityState) :
    EntityState :=
  if entity.type = .forklift then
    let gridPositions : List LanePoint :=
      [⟨15.2, 11.2⟩, ⟨21.6, 11.2⟩, ⟨28.0, 11.2⟩, ⟨34.4, 11.2⟩]
    let safePosition : LanePoint := ⟨12.5, 11.2⟩
    let position := gridPositions.getD (rnd.gridPick % gridPositions.length) safePosition
    { entity with
      x := position.x
      y := position.y
      targetPosition := none
      speed := entity.targetSpeed }
  else
    match (LaneNavigator.getAllLanes net)[rnd.lanePick % (LaneNavigator.getAllLanes net).length]? with
    | none => entity
    | some randomLane =>
        match randomLane.points.head? with
        | none => entity
        | some p0 =>
            { entity with
              currentLaneId := some randomLane.id
              x := p0.x
              y := p0.y
              laneProgress := 0
              route := LaneNavigator.generateRandomRoute m rnd.routePicks randomLane.id 5
              routeIndex := 0 }

/-- Random draws of one `updateEntity` call: one branch's worth of motion
draws plus the reset draws consumed only on recovery. -/
structure UpdateRand where
  grid : GridRand
  lane : LaneMoveRand
  reset : ResetRand

/-- The `try` block of `updateEntity` up to the zone update: grid motion
for forklifts (total, never throws), lane motion for the rest (may
throw). -/
def WarehouseSimulator.updateEntityInner (g : Geo) (net : LaneNetwork)
    (m : List (String × List String)) (config : SimulatorConfig)
    (rnd : UpdateRand) (entity : EntityState) (deltaTime : ℚ) :
    Except String EntityState :=
  if entity.type = .forklift then
    .ok (WarehouseSimulator.updateForkliftGridMovement g rnd.grid entity deltaTime)
  else
    WarehouseSimulator.updateLaneBasedMovement g net m config rnd.lane entity deltaTime

/-- `WarehouseSimulator.updateEntity`: run the motion model and the zone
reclassification inside a per-entity `try`; on any exception, recover by
resetting the entity to a known-valid state. -/
def WarehouseSimulator.updateEntity (g : Geo) (net : LaneNetwork)
    (m : List (String × List String)) (config : SimulatorConfig)
    (rnd : UpdateRand) (entity : EntityState) (deltaTime : ℚ) : EntityState :=
  match WarehouseSimulator.updateEntityInner g net m config rnd entity deltaTime with
  | .ok e' =>
      let z := WarehouseSimulator.getZoneFromPosition e'.x e'.y
      { e' with zoneId := some (if z = "" then "unknown" else z) }
  | .error _ => WarehouseSimulator.resetEntityToValidLane net m rnd.reset entity

/-- The per-tick entity loop of `start`'s interval callback, starting at
entity index `i`: every entity is updated in order, each with its own
random draws. -/
def WarehouseSimulator.updateEntitiesFrom (g : Geo) (net : LaneNetwork)
    (m : List (String × List String)) (config : SimulatorConfig)
    (rnds : ℕ → UpdateRand) (deltaTime : ℚ) :
    ℕ → List EntityState → List EntityState
  | _, [] => []
  | i, e :: rest =>
      WarehouseSimulator.updateEntity g net m config (rnds i) e deltaTime ::
        WarehouseSimulator.updateEntitiesFrom g net m config rnds deltaTime (i + 1) rest

/-- The per-tick entity loop of `start`'s interval callback: every entity
is updated in order, each with its own random draws; one entity's
recovery never affects the others. -/
def WarehouseSimulator.updateAllEntities (g : Geo) (net : LaneNetwork)
    (m : List (String × List String)) (config : SimulatorConfig)
    (rnds : ℕ → UpdateRand) (entities : List EntityState) (deltaTime : ℚ) :
    List EntityState :=
  WarehouseSimulator.updateEntitiesFrom g net m config rnds deltaTime 0 entities

/-! ### The tick scheduler's lifecycle (`start` / `stop`)

`start` registers one `setInterval` loop unless the simulator is already
running; `stop` clears it unless the simulator is not running.  The
runtime's set of live interval timers is abstracted by a counter. -/

/-- The lifecycle-relevant state of a `WarehouseSimulator` instance plus
its runtime: the `running` flag and the number of live interval tick
loops registered by this instance. -/
structure SimLifecycle where
  running : Bool
  activeTimers : ℕ
deriving DecidableEq, Repr

/-- `WarehouseSimulator.start` (lifecycle effect): early-return when
already running, otherwise set `running` and register one interval tick
loop. -/
def WarehouseSimulator.startSim (s : SimLifecycle) : SimLifecycle :=
  if s.running then s
  else { running := true, activeTimers := s.activeTimers + 1 }

/-- `WarehouseSimulator.stop` (lifecycle effect): early-return when not
running, otherwise clear `running` and clear the registered interval
loop. -/
def WarehouseSimulator.stopSim (s : SimLifecycle) : SimLifecycle :=
  if ¬ s.running then s
  else { running := false, activeTimers := s.activeTimers - 1 }

/-- A call to one of the two public lifecycle methods. -/
inductive LifecycleCall where
  | start
  | stop
deriving DecidableEq, Repr

/-- Apply one lifecycle call. -/
def WarehouseSimulator.applyCall (s : SimLifecycle) : LifecycleCall → SimLifecycle
  | .start => WarehouseSimulator.startSim s
  | .stop => WarehouseSimulator.stopSim s

/-- The constructor's lifecycle state: not running, no timer. -/
def WarehouseSimulator.initialLifecycle : SimLifecycle :=
  { running := false, activeTimers := 0 }

/-! ## `dt-dashboard/src/utils/pathValidation.ts`

The dashboard's standalone path-geometry utility.  Every distance in this
module is only ever *compared* against a threshold or another distance, so
the embedding works throughout with squared distances; this agrees with
the source for non-negative thresholds because `Math.sqrt` is monotone
(and both `maxDistance` and `tolerance` appear squared on the comparison's
other side). -/

/-- `pathValidation.ts` interface `PathSegment`'s `type` tag. -/
inductive SegType where
  | mainAisle
  | rackConnector
  | loadingZone
deriving DecidableEq, Repr

/-- `pathValidation.ts` interface `PathSegment` (field `end` renamed to
`endP`: `end` is a Lean keyword). -/
structure PathSegment where
  id : String
  start : LanePoint
  endP : LanePoint
  type : SegType
deriving DecidableEq, Repr

/-- The `WAREHOUSE_PATHS` constant: three horizontal aisles, five vertical
connectors, two boundary lines. -/
def WAREHOUSE_PATHS : List PathSegment :=
  [ ⟨"top-horizontal-line", ⟨2, 7.8⟩, ⟨46, 7.8⟩, .mainAisle⟩,
    ⟨"middle-horizontal-line", ⟨2, 11.2⟩, ⟨46, 11.2⟩, .mainAisle⟩,
    ⟨"bottom-horizontal-line", ⟨2, 14.6⟩, ⟨46, 14.6⟩, .mainAisle⟩,
    ⟨"vertical-line-1", ⟨9.5, 2.5⟩, ⟨9.5, 19.5⟩, .rackConnector⟩,
    ⟨"vertical-line-2", ⟨16.5, 2.5⟩, ⟨16.5, 19.5⟩, .rackConnector⟩,
    ⟨"vertical-line-3", ⟨23.5, 2.5⟩, ⟨23.5, 19.5⟩, .rackConnector⟩,
    ⟨"vertical-line-4", ⟨30.5, 2.5⟩, ⟨30.5, 19.5⟩, .rackConnector⟩,
    ⟨"vertical-line-5", ⟨37.5, 2.5⟩, ⟨37.5, 19.5⟩, .rackConnector⟩,
    ⟨"left-boundary", ⟨2, 2.5⟩, ⟨2, 19.5⟩, .mainAisle⟩,
    ⟨"right-boundary", ⟨44.5, 2.5⟩, ⟨44.5, 19.5⟩, .mainAisle⟩ ]

/-- `distanceToLineSegment`, in squared form: squared distance from
`point` to the segment `[lineStart, lineEnd]`, with the source's exact
branch structure (degenerate segment / before start / after end /
projection). -/
def distSqToLineSegment (point lineStart lineEnd : LanePoint) : ℚ :=
  let A := point.x - lineStart.x
  let B := point.y - lineStart.y
  let C := lineEnd.x - lineStart.x
  let D := lineEnd.y - lineStart.y
  let dot := A * C + B * D
  let lenSq := C * C + D * D
  if lenSq = 0 then A * A + B * B
  else
    let param := dot / lenSq
    if param < 0 then A * A + B * B
    else if param > 1 then
      (point.x - lineEnd.x) * (point.x - lineEnd.x) +
        (point.y - lineEnd.y) * (point.y - lineEnd.y)
    else
      let projX := lineStart.x + param * C
      let projY := lineStart.y + param * D
      (point.x - projX) * (point.x - projX) + (point.y - projY) * (point.y - projY)

/-- The squared segment length `lenSq` of `snapToNearestPath`'s loop
body. -/
def segLenSq (segment : PathSegment) : ℚ :=
  (segment.endP.x - segment.start.x) * (segment.endP.x - segment.start.x) +
    (segment.endP.y - segment.start.y) * (segment.endP.y - segment.start.y)

/-- The clamped projection parameter `param = max(0, min(1, dot / lenSq))`
of `snapToNearestPath`'s loop body. -/
def projParam (point : LanePoint) (segment : PathSegment) : ℚ :=
  let C := segment.endP.x - segment.start.x
  let D := segment.endP.y - segment.start.y
  let dot := (point.x - segment.start.x) * C + (point.y - segment.start.y) * D
  max 0 (min 1 (dot / segLenSq segment))

/-- The candidate snap point `(projX, projY)` of `snapToNearestPath`'s
loop body. -/
def projPoint (point : LanePoint) (segment : PathSegment) : LanePoint :=
  ⟨segment.start.x + projParam point segment * (segment.endP.x - segment.start.x),
   segment.start.y + projParam point segment * (segment.endP.y - segment.start.y)⟩

/-- The candidate's squared distance to the query point in
`snapToNearestPath`'s loop body. -/
def projDistSq (point : LanePoint) (segment : PathSegment) : ℚ :=
  dist2 point (projPoint point segment)

/-- One iteration of `snapToNearestPath`'s loop: skip zero-length
segments, otherwise keep the candidate when its distance beats the
running minimum.  State is `(closestPoint, minDistance²)`. -/
def snapStep (point : LanePoint) (st : LanePoint × ℚ) (segment : PathSegment) :
    LanePoint × ℚ :=
  if segLenSq segment = 0 then st
  else if projDistSq point segment < st.2 then
    (projPoint point segment, projDistSq point segment)
  else st

/-- `snapToNearestPath`: closest clamped projection onto any
`WAREHOUSE_PATHS` segment, the input point unchanged when no segment
comes strictly within `maxDistance` (the running minimum starts at
`maxDistance`, squared here). -/
def snapToNearestPath (point : LanePoint) (maxDistance : ℚ) : LanePoint :=
  (WAREHOUSE_PATHS.foldl (snapStep point) (point, maxDistance * maxDistance)).1

/-- `isOnValidPath`: some segment within `tolerance`
(`distance <= tolerance`, squared here). -/
def isOnValidPath (point : LanePoint) (tolerance : ℚ) : Bool :=
  WAREHOUSE_PATHS.any (fun segment =>
    decide (distSqToLineSegment point segment.start segment.endP ≤
      tolerance * tolerance))

/-! ## Verification -/

/-! ### C9: start/stop lifecycle -/

/-- The lifecycle invariant: a live interval tick loop exists exactly when
the `running` flag is set (in particular there is never more than one). -/
def lifecycleInv (s : SimLifecycle) : Prop :=
  s.activeTimers = if s.running then 1 else 0

theorem lifecycleInv_applyCall (s : SimLifecycle) (c : LifecycleCall)
    (h : lifecycleInv s) : lifecycleInv (WarehouseSimulator.applyCall s c) := by
  cases c <;>
    simp only [WarehouseSimulator.applyCall, WarehouseSimulator.startSim,
      WarehouseSimulator.stopSim, lifecycleInv] at h ⊢ <;>
    split <;> simp_all

theorem lifecycleInv_foldl (calls : List LifecycleCall) :
    ∀ s : SimLifecycle, lifecycleInv s →
      lifecycleInv (calls.foldl WarehouseSimulator.applyCall s) := by
  induction calls with
  | nil => exact fun s h => h
  | cons c rest ih =>
      exact fun s h => ih _ (lifecycleInv_applyCall s c h)

/-- C9: `start` on a running simulator is a no-op that registers no second
tick loop, `stop` on a stopped simulator is a no-op, after any call
sequence from construction there is at most one live tick loop (exactly
one batch source per interval), and after a `stop` the running flag is
cleared and no timer remains. -/
theorem start_stop_idempotent_single_loop :
    (∀ s : SimLifecycle, s.running = true → WarehouseSimulator.startSim s = s) ∧
    (∀ s : SimLifecycle, s.running = false → WarehouseSimulator.stopSim s = s) ∧
    (∀ calls : List LifecycleCall,
      (calls.foldl WarehouseSimulator.applyCall WarehouseSimulator.initialLifecycle).activeTimers ≤ 1) ∧
    (∀ calls : List LifecycleCall,
      (WarehouseSimulator.stopSim
          (calls.foldl WarehouseSimulator.applyCall WarehouseSimulator.initialLifecycle)).running = false ∧
      (WarehouseSimulator.stopSim
          (calls.foldl WarehouseSimulator.applyCall WarehouseSimulator.initialLifecycle)).activeTimers = 0) := by
  have hInv : ∀ calls : List LifecycleCall,
      lifecycleInv (calls.foldl WarehouseSimulator.applyCall WarehouseSimulator.initialLifecycle) :=
    fun calls => lifecycleInv_foldl calls _ (by simp [lifecycleInv, WarehouseSimulator.initialLifecycle])
  refine ⟨?_, ?_, ?_, ?_⟩
  · intro s h
    simp [WarehouseSimulator.startSim, h]
  · intro s h
    simp [WarehouseSimulator.stopSim, h]
  · intro calls
    have h := hInv calls
    unfold lifecycleInv at h
    rw [h]
    split <;> omega
  · intro calls
    have h := hInv calls
    unfold lifecycleInv at h
    unfold WarehouseSimulator.stopSim
    split
    · rename_i hnr
      simp only [Bool.not_eq_true] at hnr
      exact ⟨hnr, by rw [h, hnr]; rfl⟩
    · rename_i hr
      simp only [Bool.not_eq_true, not_not] at hr
      exact ⟨rfl, by simp [h, hr]⟩

/-- Witness for C9 at concrete inputs: a second `start` call leaves the
state untouched, and after `start, start` exactly one tick loop is
live. -/
theorem start_stop_idempotent_single_loop_witness :
    WarehouseSimulator.startSim { running := true, activeTimers := 1 } =
      { running := true, activeTimers := 1 } ∧
    ([LifecycleCall.start, LifecycleCall.start].foldl WarehouseSimulator.applyCall
        WarehouseSimulator.initialLifecycle).activeTimers ≤ 1 :=
  ⟨start_stop_idempotent_single_loop.1 _ rfl,
   start_stop_idempotent_single_loop.2.2.1 [LifecycleCall.start, LifecycleCall.start]⟩

/-! ### C2: the divisor used when advancing along a lane -/

/-- Counterexample to C2 as stated: the divisor `advanceAlongLane` uses is
`LaneNavigator.calculateLaneLength`, which has no floor — for a lane whose
two points coincide it is `0`, not bounded away from zero.  (`gId.sqrtq`
agrees with `Math.sqrt` on the only input reached here, `0`.) -/
theorem advance_divisor_not_floored :
    ¬ (0 < LaneNavigator.calculateLaneLength gId
          { id := "Z0", points := [⟨5, 5⟩, ⟨5, 5⟩] }) := by
  have h : LaneNavigator.calculateLaneLength gId
      { id := "Z0", points := [⟨5, 5⟩, ⟨5, 5⟩] } = 0 := by
    norm_num [LaneNavigator.calculateLaneLength, polylineLength,
      LaneNavigator.distance, dist2, gId]
  rw [h]
  norm_num

/-- C2 amended: the *simulator's* copy of `calculateLaneLength` — the
divisor of the in-place `laneProgress` update — is floored at 1 for every
lane and every ambient square root, so that division never divides by
zero; the *navigator's* copy, used as divisor inside `advanceAlongLane`,
has no floor and is `0` on an all-coincident polyline. -/
theorem simulator_divisor_floored_navigator_not :
    (∀ (g : Geo) (lane : Lane), 1 ≤ WarehouseSimulator.calculateLaneLength g lane) ∧
    LaneNavigator.calculateLaneLength gId { id := "Z0", points := [⟨5, 5⟩, ⟨5, 5⟩] } = 0 :=
  ⟨fun _ lane => le_max_right (polylineLength _ lane.points) 1,
   by norm_num [LaneNavigator.calculateLaneLength, polylineLength,
        LaneNavigator.distance, dist2, gId]⟩

/-! ### C3: snapping onto the dashboard path network -/

theorem projParam_nonneg (point : LanePoint) (segment : PathSegment) :
    0 ≤ projParam point segment :=
  le_max_left 0 _

theorem projParam_le_one (point : LanePoint) (segment : PathSegment) :
    projParam point segment ≤ 1 :=
  max_le (by norm_num) (min_le_left _ _)

/-- A clamped projection onto a non-degenerate segment lies exactly on
that segment: its `distanceToLineSegment` is zero. -/
theorem distSqToLineSegment_projPoint (point : LanePoint) (segment : PathSegment)
    (h : segLenSq segment ≠ 0) :
    distSqToLineSegment (projPoint point segment) segment.start segment.endP = 0 := by
  have ht0 : 0 ≤ projParam point segment := projParam_nonneg point segment
  have ht1 : projParam point segment ≤ 1 := projParam_le_one point segment
  set t := projParam point segment with ht
  have hlen : (segment.endP.x - segment.start.x) * (segment.endP.x - segment.start.x) +
      (segment.endP.y - segment.start.y) * (segment.endP.y - segment.start.y) ≠ 0 := h
  simp only [distSqToLineSegment, projPoint, ← ht]
  have hdot : (segment.start.x + t * (segment.endP.x - segment.start.x) - segment.start.x) *
        (segment.endP.x - segment.start.x) +
      (segment.start.y + t * (segment.endP.y - segment.start.y) - segment.start.y) *
        (segment.endP.y - segment.start.y)
      = t * ((segment.endP.x - segment.start.x) * (segment.endP.x - segment.start.x) +
          (segment.endP.y - segment.start.y) * (segment.endP.y - segment.start.y)) := by
    ring
  rw [hdot, if_neg hlen, mul_div_cancel_right₀ t hlen, if_neg (not_lt.2 ht0),
    if_neg (not_lt.2 ht1)]
  ring

/-- Shape of the snap fold: either nothing was ever closer than the
running minimum and the state is unchanged, or the resulting point is the
clamped projection onto some non-degenerate segment of the list. -/
theorem snapFold_shape (point : LanePoint) :
    ∀ (segs : List PathSegment) (c : LanePoint) (md : ℚ),
      segs.foldl (snapStep point) (c, md) = (c, md) ∨
      ∃ seg ∈ segs, segLenSq seg ≠ 0 ∧
        (segs.foldl (snapStep point) (c, md)).1 = projPoint point seg := by
  intro segs
  induction segs with
  | nil => exact fun c md => Or.inl rfl
  | cons s rest ih =>
      intro c md
      by_cases hl : segLenSq s = 0
      · have hstep : snapStep point (c, md) s = (c, md) := by
          simp [snapStep, hl]
        rcases ih c md with h | ⟨seg, hmem, hlen, heq⟩
        · exact Or.inl (by simp only [List.foldl_cons, hstep, h])
        · exact Or.inr ⟨seg, List.mem_cons_of_mem s hmem, hlen,
            by simp only [List.foldl_cons, hstep, heq]⟩
      · by_cases hd : projDistSq point s < md
        · have hstep : snapStep point (c, md) s = (projPoint point s, projDistSq point s) := by
            simp [snapStep, hl, hd]
          rcases ih (projPoint point s) (projDistSq point s) with h | ⟨seg, hmem, hlen, heq⟩
          · exact Or.inr ⟨s, List.mem_cons_self s rest, hl,
              by simp only [List.foldl_cons, hstep, h]⟩
          · exact Or.inr ⟨seg, List.mem_cons_of_mem s hmem, hlen,
              by simp only [List.foldl_cons, hstep, heq]⟩
        · have hstep : snapStep point (c, md) s = (c, md) := by
            simp [snapStep, hl, hd]
          rcases ih c md with h | ⟨seg, hmem, hlen, heq⟩
          · exact Or.inl (by simp only [List.foldl_cons, hstep, h])
          · exact Or.inr ⟨seg, List.mem_cons_of_mem s hmem, hlen,
              by simp only [List.foldl_cons, hstep, heq]⟩

/-- The running minimum of the snap fold never increases. -/
theorem snapFold_min_le (point : LanePoint) :
    ∀ (segs : List PathSegment) (c : LanePoint) (md : ℚ),
      (segs.foldl (snapStep point) (c, md)).2 ≤ md := by
  intro segs
  induction segs with
  | nil => exact fun c md => le_refl md
  | cons s rest ih =>
      intro c md
      by_cases hl : segLenSq s = 0
      · simpa [snapStep, hl] using ih c md
      · by_cases hd : projDistSq point s < md
        · have := ih (projPoint point s) (projDistSq point s)
          calc (((s :: rest).foldl (snapStep point) (c, md)).2)
              = ((rest.foldl (snapStep point) (projPoint point s, projDistSq point s)).2) := by
                simp [snapStep, hl, hd]
            _ ≤ projDistSq point s := this
            _ ≤ md := le_of_lt hd
        · simpa [snapStep, hl, hd] using ih c md

/-- If some non-degenerate segment comes strictly closer than the initial
minimum, the fold's final minimum drops strictly below it. -/
theorem snapFold_min_lt (point : LanePoint) :
    ∀ (segs : List PathSegment) (c : LanePoint) (md : ℚ),
      (∃ seg ∈ segs, segLenSq seg ≠ 0 ∧ projDistSq point seg < md) →
      (segs.foldl (snapStep point) (c, md)).2 < md := by
  intro segs
  induction segs with
  | nil => rintro c md ⟨seg, hmem, -⟩; exact absurd hmem (List.not_mem_nil seg)
  | cons s rest ih =>
      rintro c md ⟨seg, hmem, hlen, hd⟩
      rcases List.mem_cons.1 hmem with h | hmem'
      · subst h
        have hstep : snapStep point (c, md) seg = (projPoint point seg, projDistSq point seg) := by
          simp [snapStep, hlen, hd]
        calc ((seg :: rest).foldl (snapStep point) (c, md)).2
            = (rest.foldl (snapStep point) (projPoint point seg, projDistSq point seg)).2 := by
              simp only [List.foldl_cons, hstep]
          _ ≤ projDistSq point seg := snapFold_min_le point rest _ _
          _ < md := hd
      · by_cases hl : segLenSq s = 0
        · have hstep : snapStep point (c, md) s = (c, md) := by simp [snapStep, hl]
          simpa only [List.foldl_cons, hstep] using ih c md ⟨seg, hmem', hlen, hd⟩
        · by_cases hds : projDistSq point s < md
          · have hstep : snapStep point (c, md) s = (projPoint point s, projDistSq point s) := by
              simp [snapStep, hl, hds]
            calc ((s :: rest).foldl (snapStep point) (c, md)).2
                = (rest.foldl (snapStep point) (projPoint point s, projDistSq point s)).2 := by
                  simp only [List.foldl_cons, hstep]
              _ ≤ projDistSq point s := snapFold_min_le point rest _ _
              _ < md := hds
          · have hstep : snapStep point (c, md) s = (c, md) := by simp [snapStep, hl, hds]
            simpa only [List.foldl_cons, hstep] using ih c md ⟨seg, hmem', hlen, hd⟩

/-- Counterexample to C3 as stated: for the far-away point `(1000, 1000)`,
snap distance `1` and tolerance `1/2` (nonzero, exceeded by the snap
distance), `snapToNearestPath` returns the point unchanged — nothing is
within the snap distance — and the result is *not* on a valid path. -/
theorem snap_far_point_not_on_path :
    ((1 : ℚ) / 2 ≠ 0 ∧ (1 : ℚ) / 2 < 1) ∧
    isOnValidPath (snapToNearestPath ⟨1000, 1000⟩ 1) (1 / 2) = false := by
  refine ⟨⟨by norm_num, by norm_num⟩, ?_⟩
  norm_num [isOnValidPath, snapToNearestPath, WAREHOUSE_PATHS, snapStep, segLenSq,
    projDistSq, projPoint, projParam, distSqToLineSegment, dist2]

/-- C3 amended: whenever the tolerance is nonzero, the snap distance `d`
exceeds it, and *some non-degenerate path segment passes strictly within
`d` of `p`* (the proviso the counterexample forces), the snapped point
lies on a valid path at that tolerance. -/
theorem snap_lands_on_path (point : LanePoint) (d tolerance : ℚ)
    (htol : 0 < tolerance) (hdt : tolerance < d)
    (hnear : ∃ seg ∈ WAREHOUSE_PATHS, segLenSq seg ≠ 0 ∧ projDistSq point seg < d * d) :
    isOnValidPath (snapToNearestPath point d) tolerance = true := by
  have hlt := snapFold_min_lt point WAREHOUSE_PATHS point (d * d) hnear
  rcases snapFold_shape point WAREHOUSE_PATHS point (d * d) with h | ⟨seg, hmem, hlen, heq⟩
  · rw [h] at hlt
    exact absurd hlt (lt_irrefl _)
  · have hzero := distSqToLineSegment_projPoint point seg hlen
    unfold isOnValidPath snapToNearestPath
    rw [List.any_eq_true]
    refine ⟨seg, hmem, ?_⟩
    rw [heq, hzero]
    exact decide_eq_true (mul_self_nonneg tolerance)

/-- Witness for the amended C3: the point `(3, 11)` lies within distance 1
of the middle horizontal aisle, and snapping it with `maxDistance = 1`
lands on a valid path at tolerance `1/2`. -/
theorem snap_lands_on_path_witness :
    isOnValidPath (snapToNearestPath ⟨3, 11⟩ 1) (1 / 2) = true :=
  snap_lands_on_path ⟨3, 11⟩ 1 (1 / 2) (by norm_num) (by norm_num)
    (by
      refine ⟨⟨"middle-horizontal-line", ⟨2, 11.2⟩, ⟨46, 11.2⟩, .mainAisle⟩, ?_, ?_, ?_⟩
      · norm_num [WAREHOUSE_PATHS]
      · norm_num [segLenSq]
      · norm_num [projDistSq, projPoint, projParam, segLenSq, dist2])

/-! ### C6: dead-end reversal in `chooseNextLane` -/

/-- Association-list lookup of a stored entry, when keys are unique (as
`buildLaneConnections` guarantees: one `Map.set` per distinct lane id). -/
theorem mapGetD_of_mem (m : List (String × List String)) (entry : String × List String)
    (hkeys : (m.map Prod.fst).Nodup) (hmem : entry ∈ m) :
    mapGetD m entry.1 = entry.2 := by
  induction m with
  | nil => exact absurd hmem (List.not_mem_nil entry)
  | cons e rest ih =>
      rw [List.map_cons, List.nodup_cons] at hkeys
      rcases List.mem_cons.1 hmem with h | h
      · subst h
        have hfind : (entry :: rest).find? (fun x => x.1 == entry.1) = some entry :=
          List.find?_cons_of_pos _ (by simp)
        simp [mapGetD, hfind]
      · have hne : e.1 ≠ entry.1 := by
          intro hEq
          exact hkeys.1 (hEq ▸ List.mem_map_of_mem Prod.fst h)
        have hfind : (e :: rest).find? (fun x => x.1 == entry.1) =
            rest.find? (fun x => x.1 == entry.1) :=
          List.find?_cons_of_neg _ (by simp [hne])
        simp only [mapGetD, hfind]
        simpa [mapGetD] using ih hkeys.2 h

/-- C6: on a lane with an empty connection set, `chooseNextLane` performs
the dead-end reversal: any returned lane is a *different* lane whose
connection list contains the current lane; a lane is returned whenever
some map entry lists the current lane; and `null` comes back only when no
lane in the graph lists the current lane as a connection. -/
theorem deadend_reversal_chooseNextLane (m : List (String × List String))
    (pick : ℕ) (entity : EntityState) (cur : String)
    (hkeys : (m.map Prod.fst).Nodup)
    (hdead : mapGetD m cur = []) :
    (∀ res, LaneNavigator.chooseNextLane m pick cur entity = some res →
        res ≠ cur ∧ cur ∈ mapGetD m res) ∧
    ((∃ entry ∈ m, cur ∈ entry.2) →
        (LaneNavigator.chooseNextLane m pick cur entity).isSome = true) ∧
    (LaneNavigator.chooseNextLane m pick cur entity = none →
        ∀ entry ∈ m, cur ∉ entry.2) := by
  have hchoose : LaneNavigator.chooseNextLane m pick cur entity =
      LaneNavigator.findReturnLane m cur := by
    unfold LaneNavigator.chooseNextLane
    rw [hdead]
    rfl
  have hKeyCur : ∀ entry ∈ m, cur ∈ entry.2 → entry.1 ≠ cur := by
    intro entry hmem hin hEq
    have := mapGetD_of_mem m entry hkeys hmem
    rw [hEq, hdead] at this
    rw [← this] at hin
    exact absurd hin (List.not_mem_nil cur)
  refine ⟨?_, ?_, ?_⟩
  · intro res hres
    rw [hchoose] at hres
    unfold LaneNavigator.findReturnLane at hres
    rcases hfind : m.find? (fun e => e.2.contains cur && e.1 ≠ cur) with _ | entry
    · rw [hfind] at hres
      exact absurd hres (by simp)
    · rw [hfind] at hres
      have hpred := List.find?_some hfind
      have hmem := List.mem_of_find?_eq_some hfind
      simp only [Bool.and_eq_true, decide_eq_true_eq, List.elem_iff] at hpred
      have hres' : res = entry.1 := by
        simpa using hres.symm
      subst hres'
      refine ⟨hpred.2, ?_⟩
      rw [mapGetD_of_mem m entry hkeys hmem]
      exact hpred.1
  · rintro ⟨entry, hmem, hin⟩
    rw [hchoose]
    unfold LaneNavigator.findReturnLane
    rcases hfind : m.find? (fun e => e.2.contains cur && e.1 ≠ cur) with _ | found
    · exfalso
      have := List.find?_eq_none.1 hfind entry hmem
      simp only [Bool.and_eq_true, decide_eq_true_eq, List.elem_iff, not_and] at this
      exact (hKeyCur entry hmem hin) (not_not.1 (this hin))
    · rw [hfind]
      simp
  · intro hnone entry hmem hin
    rw [hchoose] at hnone
    unfold LaneNavigator.findReturnLane at hnone
    rcases hfind : m.find? (fun e => e.2.contains cur && e.1 ≠ cur) with _ | found
    · have := List.find?_eq_none.1 hfind entry hmem
      simp only [Bool.and_eq_true, decide_eq_true_eq, List.elem_iff, not_and] at this
      exact (hKeyCur entry hmem hin) (not_not.1 (this hin))
    · rw [hfind] at hnone
      exact absurd hnone (by simp)

/-- Witness for C6: in the two-entry map `A ↦ []`, `B ↦ [A]`, lane `A` is
a dead end and `chooseNextLane` finds the return lane `B`. -/
theorem deadend_reversal_chooseNextLane_witness :
    (LaneNavigator.chooseNextLane [("A", []), ("B", ["A"])] 0 "A"
        ⟨"e1", .pallet, 0, 0, 0, 0, 0, none, 0, [], 0, 0, none, none⟩).isSome = true :=
  (deadend_reversal_chooseNextLane [("A", []), ("B", ["A"])] 0
      ⟨"e1", .pallet, 0, 0, 0, 0, 0, none, 0, [], 0, 0, none, none⟩ "A"
      (by decide) (by decide)).2.1
    ⟨("B", ["A"]), by decide, by decide⟩


/-! ### C7 and C10: properties of `generateRandomRoute` -/

/-- "No immediate backtrack": whenever an element of the route equals the
element two positions before it, every connection of the lane in between
equals that lane (backtracking was the only choice). -/
def LaneNavigator.routeBacktrackFree (m : List (String × List String)) :
    List String → Prop
  | a :: b :: c :: rest =>
      (c = a → ∀ x ∈ mapGetD m b, x = a) ∧
      LaneNavigator.routeBacktrackFree m (b :: c :: rest)
  | _ => True

/-- Indexing a nonempty list of strings at `i % length` with any default
yields a member. -/
theorem getD_mod_mem (l : List String) (i : ℕ) (h : l ≠ []) :
    l.getD (i % l.length) "" ∈ l := by
  have hlen : 0 < l.length := List.length_pos.2 h
  have hm : i % l.length < l.length := Nat.mod_lt _ hlen
  rw [List.getD_eq_getElem?_getD, List.getElem?_eq_getElem hm]
  exact List.getElem_mem hm

/-- The picked next lane is always one of the current lane's
connections. -/
theorem routeNextChoice_mem (m : List (String × List String)) (picks : ℕ → ℕ)
    (step : ℕ) (prev : Option String) (c : String) (h : mapGetD m c ≠ []) :
    LaneNavigator.routeNextChoice m picks step prev c ∈ mapGetD m c := by
  unfold LaneNavigator.routeNextChoice
  split
  · rename_i hv
    have hvne : LaneNavigator.routeValidConnections m prev c ≠ [] := by
      intro hEq
      rw [hEq] at hv
      exact absurd hv (by simp)
    have hsub : LaneNavigator.routeValidConnections m prev c ⊆ mapGetD m c := by
      unfold LaneNavigator.routeValidConnections
      intro x hx
      exact (List.mem_filter.1 hx).1
    exact hsub (getD_mod_mem _ (picks step) hvne)
  · exact getD_mod_mem _ (picks step) h

/-- If the picked next lane *is* the lane two hops back, then every
connection of the current lane equals it (no alternative existed). -/
theorem routeNextChoice_backtrack (m : List (String × List String))
    (picks : ℕ → ℕ) (step : ℕ) (p c : String)
    (h : LaneNavigator.routeNextChoice m picks step (some p) c = p) :
    ∀ x ∈ mapGetD m c, x = p := by
  intro x hx
  by_contra hne
  have hxv : x ∈ LaneNavigator.routeValidConnections m (some p) c := by
    unfold LaneNavigator.routeValidConnections
    rw [List.mem_filter]
    exact ⟨hx, by simpa using hne⟩
  have hvne : LaneNavigator.routeValidConnections m (some p) c ≠ [] :=
    fun hEq => absurd (hEq ▸ hxv) (List.not_mem_nil x)
  have hvpos : (LaneNavigator.routeValidConnections m (some p) c).length > 0 :=
    List.length_pos.2 hvne
  have hchoice : LaneNavigator.routeNextChoice m picks step (some p) c ∈
      LaneNavigator.routeValidConnections m (some p) c := by
    unfold LaneNavigator.routeNextChoice
    rw [if_pos hvpos]
    exact getD_mod_mem _ (picks step) hvne
  rw [h] at hchoice
  have := List.mem_filter.1 hchoice
  simp at this

/-- The route loop never backtracks through the lane it just came from
when an alternative exists (stated over the loop with its two-lane
window). -/
theorem genRouteAux_backtrackFree (m : List (String × List String))
    (picks : ℕ → ℕ) :
    ∀ (fuel step : ℕ) (p c : String),
      LaneNavigator.routeBacktrackFree m
        (p :: c :: LaneNavigator.genRouteAux m picks step fuel (some p) c) := by
  intro fuel
  induction fuel with
  | zero => intro step p c; simp [LaneNavigator.genRouteAux, LaneNavigator.routeBacktrackFree]
  | succ fuel ih =>
      intro step p c
      unfold LaneNavigator.genRouteAux
      split
      · simp [LaneNavigator.routeBacktrackFree]
      · rename_i hc
        rcases hchosen : strToOption (LaneNavigator.routeNextChoice m picks step (some p) c) with _ | n
        · simp [LaneNavigator.routeBacktrackFree]
        · have hn : n = LaneNavigator.routeNextChoice m picks step (some p) c := by
            unfold strToOption at hchosen
            split at hchosen
            · exact absurd hchosen (by simp)
            · exact (Option.some_inj.1 hchosen).symm
          exact ⟨fun hback => routeNextChoice_backtrack m picks step p c (hback ▸ hn.symm),
                 ih (step + 1) c n⟩

/-- The route loop makes at most `fuel` hops. -/
theorem genRouteAux_length_le (m : List (String × List String)) (picks : ℕ → ℕ) :
    ∀ (fuel step : ℕ) (prev : Option String) (c : String),
      (LaneNavigator.genRouteAux m picks step fuel prev c).length ≤ fuel := by
  intro fuel
  induction fuel with
  | zero => intro step prev c; simp [LaneNavigator.genRouteAux]
  | succ fuel ih =>
      intro step prev c
      unfold LaneNavigator.genRouteAux
      split
      · simp
      · rcases hchosen : strToOption (LaneNavigator.routeNextChoice m picks step prev c) with _ | n
        · simp
        · simpa using ih (step + 1) (some c) n

/-- Every hop of the route loop is a connection of the lane before it. -/
theorem genRouteAux_chain (m : List (String × List String)) (picks : ℕ → ℕ) :
    ∀ (fuel step : ℕ) (prev : Option String) (c : String),
      List.Chain' (fun a b => b ∈ mapGetD m a)
        (c :: LaneNavigator.genRouteAux m picks step fuel prev c) := by
  intro fuel
  induction fuel with
  | zero => intro step prev c; simp [LaneNavigator.genRouteAux]
  | succ fuel ih =>
      intro step prev c
      unfold LaneNavigator.genRouteAux
      split
      · simp
      · rename_i hc
        rcases hchosen : strToOption (LaneNavigator.routeNextChoice m picks step prev c) with _ | n
        · simp
        · have hn : n = LaneNavigator.routeNextChoice m picks step prev c := by
            unfold strToOption at hchosen
            split at hchosen
            · exact absurd hchosen (by simp)
            · exact (Option.some_inj.1 hchosen).symm
          have hne : mapGetD m c ≠ [] := fun hEq => hc (by rw [hEq]; rfl)
          have hmem : n ∈ mapGetD m c := hn ▸ routeNextChoice_mem m picks step prev c hne
          exact List.chain'_cons.2 ⟨hmem, ih (step + 1) (some c) n⟩

/-- When the connection lists hold no empty-string lane id, the route loop
either uses all its fuel or stops at a lane with no connections. -/
theorem genRouteAux_full_or_deadend (m : List (String × List String))
    (picks : ℕ → ℕ) (hno : ∀ entry ∈ m, "" ∉ entry.2) :
    ∀ (fuel step : ℕ) (prev : Option String) (c : String),
      (LaneNavigator.genRouteAux m picks step fuel prev c).length = fuel ∨
      mapGetD m ((LaneNavigator.genRouteAux m picks step fuel prev c).getLastD c) = [] := by
  intro fuel
  induction fuel with
  | zero => intro step prev c; left; rfl
  | succ fuel ih =>
      intro step prev c
      unfold LaneNavigator.genRouteAux
      split
      · rename_i hc
        right
        simpa using List.length_eq_zero.1 hc
      · rename_i hc
        rcases hchosen : strToOption (LaneNavigator.routeNextChoice m picks step prev c) with _ | n
        · exfalso
          have hx : LaneNavigator.routeNextChoice m picks step prev c = "" := by
            unfold strToOption at hchosen
            split at hchosen
            · assumption
            · exact absurd hchosen (by simp)
          have hne : mapGetD m c ≠ [] := fun hEq => hc (by rw [hEq]; rfl)
          have hmem := routeNextChoice_mem m picks step prev c hne
          rw [hx] at hmem
          rcases hfind : m.find? (fun e => e.1 == c) with _ | entry
          · exact hne (by simp [mapGetD, hfind])
          · have hentry : entry ∈ m := List.mem_of_find?_eq_some hfind
            have hEq : mapGetD m c = entry.2 := by simp [mapGetD, hfind]
            rw [hEq] at hmem
            exact hno entry hentry hmem
        · rcases ih (step + 1) (some c) n with hfull | hdead
          · left
            simpa using hfull
          · right
            show mapGetD m ((n :: LaneNavigator.genRouteAux m picks (step + 1) fuel
                (some c) n).getLastD c) = []
            rw [List.getLastD_cons]
            exact hdead

/-- C7: for every connection map (with no empty-string ids), random draw
sequence, start lane and requested length, the generated route never
backtracks to the lane two hops back unless every connection of the
current lane equals it, and a route shorter than requested ends at a lane
with zero connections. -/
theorem generateRandomRoute_no_backtrack (m : List (String × List String))
    (picks : ℕ → ℕ) (startLaneId : String) (len : ℕ)
    (hno : ∀ entry ∈ m, "" ∉ entry.2) :
    LaneNavigator.routeBacktrackFree m
      (LaneNavigator.generateRandomRoute m picks startLaneId len) ∧
    ((LaneNavigator.generateRandomRoute m picks startLaneId len).length < len →
      mapGetD m ((LaneNavigator.generateRandomRoute m picks startLaneId len).getLastD "") = []) := by
  constructor
  · unfold LaneNavigator.generateRandomRoute
    rcases hf : len - 1 with _ | f
    · simp [LaneNavigator.genRouteAux, LaneNavigator.routeBacktrackFree]
    · unfold LaneNavigator.genRouteAux
      split
      · simp [LaneNavigator.routeBacktrackFree]
      · rcases hchosen : strToOption (LaneNavigator.routeNextChoice m picks 0 none startLaneId) with _ | n
        · simp [LaneNavigator.routeBacktrackFree]
        · exact genRouteAux_backtrackFree m picks f 1 startLaneId n
  · intro hshort
    unfold LaneNavigator.generateRandomRoute at hshort ⊢
    rw [List.length_cons] at hshort
    have hlenle := genRouteAux_length_le m picks (len - 1) 0 none startLaneId
    have hlt : (LaneNavigator.genRouteAux m picks 0 (len - 1) none startLaneId).length ≠ len - 1 := by
      omega
    rcases genRouteAux_full_or_deadend m picks hno (len - 1) 0 none startLaneId with hfull | hdead
    · exact absurd hfull hlt
    · rw [List.getLastD_cons]
      exact hdead

/-- Witness for C7 on a concrete two-lane map: the route from `A` of
requested length 3 is backtrack-free. -/
theorem generateRandomRoute_no_backtrack_witness :
    LaneNavigator.routeBacktrackFree [("A", ["B"]), ("B", ["A"])]
      (LaneNavigator.generateRandomRoute [("A", ["B"]), ("B", ["A"])]
        (fun _ => 0) "A" 3) :=
  (generateRandomRoute_no_backtrack [("A", ["B"]), ("B", ["A"])] (fun _ => 0) "A" 3
    (by decide)).1

/-- C10: over the connection map built by `buildLaneConnections`, every
generated route is nonempty, starts at the requested start lane, has at
most the requested length, and each consecutive pair of elements is an
edge of the connection map. -/
theorem generateRandomRoute_wellformed (g : Geo) (net : LaneNetwork)
    (picks : ℕ → ℕ) (startLaneId : String) (len : ℕ)
    (hstart : startLaneId ∈ net.lanes.map Lane.id) (hlen : 1 ≤ len) :
    LaneNavigator.generateRandomRoute (LaneNavigator.buildLaneConnections g net)
        picks startLaneId len ≠ [] ∧
    (LaneNavigator.generateRandomRoute (LaneNavigator.buildLaneConnections g net)
        picks startLaneId len).head? = some startLaneId ∧
    (LaneNavigator.generateRandomRoute (LaneNavigator.buildLaneConnections g net)
        picks startLaneId len).length ≤ len ∧
    List.Chain' (fun a b => b ∈ mapGetD (LaneNavigator.buildLaneConnections g net) a)
      (LaneNavigator.generateRandomRoute (LaneNavigator.buildLaneConnections g net)
        picks startLaneId len) := by
  refine ⟨by simp [LaneNavigator.generateRandomRoute], by simp [LaneNavigator.generateRandomRoute], ?_, ?_⟩
  · unfold LaneNavigator.generateRandomRoute
    rw [List.length_cons]
    have := genRouteAux_length_le (LaneNavigator.buildLaneConnections g net) picks (len - 1) 0 none startLaneId
    omega
  · exact genRouteAux_chain (LaneNavigator.buildLaneConnections g net) picks (len - 1) 0 none startLaneId

/-- Witness for C10 on a concrete one-lane network. -/
theorem generateRandomRoute_wellformed_witness :
    LaneNavigator.generateRandomRoute
        (LaneNavigator.buildLaneConnections gId ⟨[⟨"A", [⟨0, 0⟩, ⟨1, 0⟩]⟩]⟩)
        (fun _ => 0) "A" 2 ≠ [] :=
  (generateRandomRoute_wellformed gId ⟨[⟨"A", [⟨0, 0⟩, ⟨1, 0⟩]⟩]⟩
    (fun _ => 0) "A" 2 (by simp) (by norm_num)).1

/-! ### C1: lane progress stays in [0,1]; transitions fire exactly at 1 -/

theorem getPositionAtProgress_ok (lane : Lane) (progress : ℚ)
    (hpts : lane.points ≠ []) :
    ∃ pt, LaneNavigator.getPositionAtProgress lane progress = .ok pt := by
  unfold LaneNavigator.getPositionAtProgress
  rcases hh : lane.points.head? with _ | hd
  · rw [List.head?_eq_none_iff] at hh
    exact absurd hh hpts
  · rcases hlast : lane.points.getLast? with _ | lp
    · rw [List.getLast?_eq_none_iff] at hlast
      exact absurd hlast hpts
    · dsimp only
      repeat' split
      all_goals exact ⟨_, rfl⟩

theorem transitionToNextLane_laneProgress (net : LaneNetwork)
    (m : List (String × List String)) (config : SimulatorConfig)
    (rnd : TransitionRand) (entity : EntityState)
    (h : strOptTruthy entity.currentLaneId = true) :
    (WarehouseSimulator.transitionToNextLane net m config rnd entity).laneProgress = 0 := by
  unfold WarehouseSimulator.transitionToNextLane
  rw [if_neg (by simp [h])]
  repeat' split
  all_goals rfl

theorem advanceAlongLane_eq (g : Geo) (net : LaneNetwork) (entity : EntityState)
    (deltaTime : ℚ) (lid : String) (lane : Lane)
    (hlid : entity.currentLaneId = some lid)
    (hlane : LaneNavigator.getLane net lid = some lane)
    (hpts : lane.points ≠ []) :
    ∃ pos, LaneNavigator.advanceAlongLane g net entity deltaTime = .ok
      { position := pos,
        heading := LaneNavigator.getHeadingAtProgress g lane
          (min 1 (entity.laneProgress +
            entity.speed * deltaTime / LaneNavigator.calculateLaneLength g lane)),
        reachedEnd := decide (min 1 (entity.laneProgress +
            entity.speed * deltaTime / LaneNavigator.calculateLaneLength g lane) ≥ 1) } := by
  unfold LaneNavigator.advanceAlongLane
  simp only [hlid, hlane]
  obtain ⟨pt, hpt⟩ := getPositionAtProgress_ok lane
    (min 1 (entity.laneProgress +
      entity.speed * deltaTime / LaneNavigator.calculateLaneLength g lane)) hpts
  rw [hpt]
  exact ⟨pt, rfl⟩

/-- C1: one lane-motion update keeps `laneProgress` inside `[0,1]`, and a
lane transition (progress reset to 0) fires exactly when the advanced
progress `laneProgress + speed·Δt / laneLength` would reach or exceed 1;
otherwise the progress is the in-place increment (over the floored
simulator length) and the current lane is unchanged. -/
theorem updateLaneBasedMovement_progress (g : Geo) (net : LaneNetwork)
    (m : List (String × List String)) (config : SimulatorConfig)
    (rnd : LaneMoveRand) (entity : EntityState) (deltaTime : ℚ)
    (lid : String) (lane : Lane)
    (hlid : entity.currentLaneId = some lid) (hne : lid ≠ "")
    (hlane : LaneNavigator.getLane net lid = some lane)
    (hpts : lane.points ≠ [])
    (hL : 0 < LaneNavigator.calculateLaneLength g lane)
    (hp0 : 0 ≤ entity.laneProgress) (hp1 : entity.laneProgress ≤ 1)
    (hs : 0 ≤ entity.speed) (hdt : 0 ≤ deltaTime) :
    ∃ e', WarehouseSimulator.updateLaneBasedMovement g net m config rnd entity deltaTime = .ok e' ∧
      0 ≤ e'.laneProgress ∧ e'.laneProgress ≤ 1 ∧
      (1 ≤ entity.laneProgress +
          entity.speed * deltaTime / LaneNavigator.calculateLaneLength g lane →
        e'.laneProgress = 0) ∧
      (entity.laneProgress +
          entity.speed * deltaTime / LaneNavigator.calculateLaneLength g lane < 1 →
        e'.laneProgress = entity.laneProgress +
            entity.speed * deltaTime / WarehouseSimulator.calculateLaneLength g lane ∧
        e'.currentLaneId = entity.currentLaneId) := by
  have htruthy : strOptTruthy entity.currentLaneId = true := by
    rw [hlid]
    simp [strOptTruthy, hne]
  have hLS1 : (1 : ℚ) ≤ WarehouseSimulator.calculateLaneLength g lane :=
    le_max_right _ 1
  have hLS0 : (0 : ℚ) < WarehouseSimulator.calculateLaneLength g lane :=
    lt_of_lt_of_le one_pos hLS1
  have hLLS : LaneNavigator.calculateLaneLength g lane ≤
      WarehouseSimulator.calculateLaneLength g lane :=
    le_max_left _ 1
  have hincS_le : entity.speed * deltaTime / WarehouseSimulator.calculateLaneLength g lane ≤
      entity.speed * deltaTime / LaneNavigator.calculateLaneLength g lane :=
    div_le_div_of_nonneg_left (mul_nonneg hs hdt) hL hLLS
  have hincS_nonneg : 0 ≤ entity.speed * deltaTime / WarehouseSimulator.calculateLaneLength g lane :=
    div_nonneg (mul_nonneg hs hdt) (le_of_lt hLS0)
  obtain ⟨pos, hadv⟩ := advanceAlongLane_eq g net entity deltaTime lid lane hlid hlane hpts
  unfold WarehouseSimulator.updateLaneBasedMovement
  rw [if_neg (by simp [htruthy])]
  rw [hadv]
  dsimp only
  simp only [hlid, hlane]
  split
  · -- transition branch
    rename_i hcond
    refine ⟨_, rfl, ?_, ?_, ?_, ?_⟩
    · dsimp only
      rw [transitionToNextLane_laneProgress]
      simp [strOptTruthy, hne]
    · dsimp only
      rw [transitionToNextLane_laneProgress]
      · norm_num
      · simp [strOptTruthy, hne]
    · intro _
      rw [transitionToNextLane_laneProgress]
      simp [strOptTruthy, hne]
    · intro hlt
      exfalso
      rcases Bool.or_eq_true_iff.1 hcond with hre | hpr
      · have := of_decide_eq_true hre
        have hmin : (1 : ℚ) ≤ entity.laneProgress +
            entity.speed * deltaTime / LaneNavigator.calculateLaneLength g lane :=
          (le_min_iff.1 this).2
        linarith
      · have h2 : entity.laneProgress +
            entity.speed * deltaTime / WarehouseSimulator.calculateLaneLength g lane ≥ 1 :=
          of_decide_eq_true hpr
        linarith
  · -- no transition
    rename_i hcond
    rw [Bool.or_eq_true_iff, not_or] at hcond
    obtain ⟨hre, hpr⟩ := hcond
    have hlt : entity.laneProgress +
        entity.speed * deltaTime / LaneNavigator.calculateLaneLength g lane < 1 := by
      by_contra hcontra
      push_neg at hcontra
      exact hre (decide_eq_true (le_min le_rfl hcontra))
    have hprlt : entity.laneProgress +
        entity.speed * deltaTime / WarehouseSimulator.calculateLaneLength g lane < 1 := by
      by_contra hcontra
      push_neg at hcontra
      exact hpr (decide_eq_true hcontra)
    refine ⟨_, rfl, ?_, ?_, ?_, ?_⟩
    · dsimp only
      linarith
    · dsimp only
      linarith
    · intro hge
      linarith
    · intro _
      exact ⟨rfl, rfl⟩

/-- Concrete fixtures for witnesses: a one-lane network with a unit-length
lane (where `gId.sqrtq` agrees with `Math.sqrt`), a pallet at the lane
start, and fixed random draws. -/
def wLane : Lane := ⟨"L1", [⟨0, 0⟩, ⟨1, 0⟩]⟩

/-- Witness network: just `wLane`. -/
def wNet : LaneNetwork := ⟨[wLane]⟩

/-- Witness configuration (the values served by `iot-service`). -/
def wConfig : SimulatorConfig :=
  ⟨100, 1, 2, 4, 3, (0.8, 2.2), (0.5, 1.8), (0.3, 1.5), 0.001, 3, 1.5⟩

/-- Witness entity: a pallet at the start of `wLane` moving at speed 1. -/
def wEntity : EntityState :=
  ⟨"pallet-1", .pallet, 0, 0, 1, 0, 1, some "L1", 0, [], 0, 0, none, none⟩

/-- Witness random draws for one lane-motion update. -/
def wLaneRand : LaneMoveRand := ⟨⟨0, fun _ => 0, 1/2, 1/2⟩, 1/2⟩

/-- Witness for C1: a concrete lane-motion update (half a lane length of
travel) succeeds with the stated progress behaviour. -/
theorem updateLaneBasedMovement_progress_witness :
    ∃ e', WarehouseSimulator.updateLaneBasedMovement gId wNet [] wConfig wLaneRand
        wEntity (1/2) = .ok e' ∧
      0 ≤ e'.laneProgress ∧ e'.laneProgress ≤ 1 ∧
      (1 ≤ wEntity.laneProgress +
          wEntity.speed * (1/2) / LaneNavigator.calculateLaneLength gId wLane →
        e'.laneProgress = 0) ∧
      (wEntity.laneProgress +
          wEntity.speed * (1/2) / LaneNavigator.calculateLaneLength gId wLane < 1 →
        e'.laneProgress = wEntity.laneProgress +
            wEntity.speed * (1/2) / WarehouseSimulator.calculateLaneLength gId wLane ∧
        e'.currentLaneId = wEntity.currentLaneId) :=
  updateLaneBasedMovement_progress gId wNet [] wConfig wLaneRand wEntity (1/2) "L1" wLane
    rfl (by decide) rfl (by simp [wLane])
    (by norm_num [LaneNavigator.calculateLaneLength, polylineLength,
      LaneNavigator.distance, dist2, gId, wLane])
    (by norm_num [wEntity]) (by norm_num [wEntity]) (by norm_num [wEntity]) (by norm_num)

/-! ### C8: per-entity exception recovery -/

theorem updateEntitiesFrom_get (g : Geo) (net : LaneNetwork)
    (m : List (String × List String)) (config : SimulatorConfig)
    (rnds : ℕ → UpdateRand) (deltaTime : ℚ) :
    ∀ (entities : List EntityState) (i j : ℕ),
      (WarehouseSimulator.updateEntitiesFrom g net m config rnds deltaTime i entities)[j]? =
        entities[j]?.map
          (fun e => WarehouseSimulator.updateEntity g net m config (rnds (i + j)) e deltaTime) := by
  intro entities
  induction entities with
  | nil => intro i j; simp [WarehouseSimulator.updateEntitiesFrom]
  | cons e rest ih =>
      intro i j
      cases j with
      | zero => simp [WarehouseSimulator.updateEntitiesFrom]
      | succ j =>
          simp only [WarehouseSimulator.updateEntitiesFrom, List.getElem?_cons_succ]
          rw [ih (i + 1) j]
          have heq : i + 1 + j = i + (j + 1) := by omega
          rw [heq]

/-- The reset grid position is always one of the four hardcoded grid
points or the safe fallback. -/
theorem gridGetD_mem (i : ℕ) :
    (([⟨15.2, 11.2⟩, ⟨21.6, 11.2⟩, ⟨28.0, 11.2⟩, ⟨34.4, 11.2⟩] : List LanePoint).getD
        (i % 4) ⟨12.5, 11.2⟩) ∈
      ([⟨15.2, 11.2⟩, ⟨21.6, 11.2⟩, ⟨28.0, 11.2⟩, ⟨34.4, 11.2⟩, ⟨12.5, 11.2⟩] :
        List LanePoint) := by
  have h4 : i % 4 = 0 ∨ i % 4 = 1 ∨ i % 4 = 2 ∨ i % 4 = 3 := by omega
  rcases h4 with h | h | h | h <;> simp [h, List.getD]

/-- C8: any exception inside one entity's motion update is caught at
entity granularity: `updateEntity` returns the reset state instead of
propagating.  The reset puts a lane-motion entity at the start of the
randomly chosen lane with progress 0 and a fresh 5-lane route, and a
grid-motion forklift on a hardcoded safe grid position with its target
cleared; and the tick loop updates every entity independently, so the
other entities' updates still run. -/
theorem updateEntity_catches_and_resets (g : Geo) (net : LaneNetwork)
    (m : List (String × List String)) (config : SimulatorConfig)
    (rnd : UpdateRand) (entity : EntityState) (deltaTime : ℚ) (msg : String)
    (herr : WarehouseSimulator.updateEntityInner g net m config rnd entity deltaTime =
      .error msg) :
    WarehouseSimulator.updateEntity g net m config rnd entity deltaTime =
      WarehouseSimulator.resetEntityToValidLane net m rnd.reset entity ∧
    (entity.type ≠ .forklift →
      ∀ lane, (LaneNavigator.getAllLanes net)[rnd.reset.lanePick %
          (LaneNavigator.getAllLanes net).length]? = some lane →
      ∀ p0, lane.points.head? = some p0 →
        (WarehouseSimulator.resetEntityToValidLane net m rnd.reset entity).currentLaneId =
            some lane.id ∧
        (WarehouseSimulator.resetEntityToValidLane net m rnd.reset entity).laneProgress = 0 ∧
        (WarehouseSimulator.resetEntityToValidLane net m rnd.reset entity).x = p0.x ∧
        (WarehouseSimulator.resetEntityToValidLane net m rnd.reset entity).y = p0.y ∧
        (WarehouseSimulator.resetEntityToValidLane net m rnd.reset entity).route =
            LaneNavigator.generateRandomRoute m rnd.reset.routePicks lane.id 5 ∧
        (WarehouseSimulator.resetEntityToValidLane net m rnd.reset entity).routeIndex = 0) ∧
    (entity.type = .forklift →
      (WarehouseSimulator.resetEntityToValidLane net m rnd.reset entity).targetPosition = none ∧
      (WarehouseSimulator.resetEntityToValidLane net m rnd.reset entity).speed =
          entity.targetSpeed ∧
      ∃ p ∈ ([⟨15.2, 11.2⟩, ⟨21.6, 11.2⟩, ⟨28.0, 11.2⟩, ⟨34.4, 11.2⟩, ⟨12.5, 11.2⟩] :
          List LanePoint),
        (WarehouseSimulator.resetEntityToValidLane net m rnd.reset entity).x = p.x ∧
        (WarehouseSimulator.resetEntityToValidLane net m rnd.reset entity).y = p.y) ∧
    (∀ (rnds : ℕ → UpdateRand) (entities : List EntityState) (j : ℕ),
      (WarehouseSimulator.updateAllEntities g net m config rnds entities deltaTime)[j]? =
        entities[j]?.map
          (fun e => WarehouseSimulator.updateEntity g net m config (rnds j) e deltaTime)) := by
  refine ⟨?_, ?_, ?_, ?_⟩
  · unfold WarehouseSimulator.updateEntity
    rw [herr]
  · intro htype lane hlane p0 hp0
    unfold WarehouseSimulator.resetEntityToValidLane
    rw [if_neg htype]
    simp [hlane, hp0]
  · intro htype
    unfold WarehouseSimulator.resetEntityToValidLane
    rw [if_pos htype]
    exact ⟨rfl, rfl, _, gridGetD_mem rnd.reset.gridPick, rfl, rfl⟩
  · intro rnds entities j
    unfold WarehouseSimulator.updateAllEntities
    rw [updateEntitiesFrom_get]
    simp

/-- Witness fixtures for C8: a pallet whose current lane id resolves to no
lane, so `advanceAlongLane` throws, and fixed random draws. -/
def wBadEntity : EntityState :=
  ⟨"pallet-2", .pallet, 0, 0, 1, 0, 1, some "missing", 0, [], 0, 0, none, none⟩

/-- Witness random draws for one `updateEntity` call. -/
def wUpdateRand : UpdateRand := ⟨⟨⟨1/2, 1/2⟩, 0⟩, wLaneRand, ⟨0, 0, fun _ => 0⟩⟩

/-- Witness for C8: the failing update of `wBadEntity` is caught and
returns the reset state. -/
theorem updateEntity_catches_and_resets_witness :
    WarehouseSimulator.updateEntity gId wNet [] wConfig wUpdateRand wBadEntity 1 =
      WarehouseSimulator.resetEntityToValidLane wNet [] wUpdateRand.reset wBadEntity :=
  (updateEntity_catches_and_resets gId wNet [] wConfig wUpdateRand wBadEntity 1
    "Lane not found" rfl).1

/-! ### C4: pairwise near-collision events and speed penalties

The nested `i < j` scan mutates `targetSpeed` in place, so an entity in
several qualifying pairs is halved once per pair.  The characterisation
below: the emitted events are exactly one per qualifying pair (in scan
order), and each entity's final target speed is its initial one times
`(1/2)^d`, where `d` is the number of qualifying pairs containing it. -/

/-- The qualifying (unordered, in scan order `i < j`) entity pairs: those
whose distance is below the collision radius with at least one of the two
in motion.  The conditions read only fields the scan never mutates, so
they are stated on the input list. -/
def WarehouseSimulator.qpairs (collisionRadius : ℚ) :
    List EntityState → List (EntityState × EntityState)
  | [] => []
  | e :: rest =>
      ((rest.filter (fun r => WarehouseSimulator.nearCollisionCond collisionRadius e r)).map
        (fun r => (e, r))) ++ WarehouseSimulator.qpairs collisionRadius rest

/-- Scale an entity's target speed by `(1/2)^n` (the effect of `n`
applications of the collision-avoidance penalty). -/
def WarehouseSimulator.scaleT (e : EntityState) (n : ℕ) : EntityState :=
  { e with targetSpeed := e.targetSpeed * (1 / 2 : ℚ) ^ n }

/-- Bump a pending entity's penalty count when it qualifies against
`e`. -/
def WarehouseSimulator.indStep (collisionRadius : ℚ) (e : EntityState)
    (p : EntityState × ℕ) : EntityState × ℕ :=
  (p.1, p.2 + if WarehouseSimulator.nearCollisionCond collisionRadius e p.1 then 1 else 0)

/-- Accumulate, for every entity, the number of qualifying pairs it
belongs to, following the triangular scan order. -/
def WarehouseSimulator.degList (collisionRadius : ℚ) :
    List (EntityState × ℕ) → List (EntityState × ℕ)
  | [] => []
  | (e, n) :: rest =>
      (e, n + rest.countP (fun p => WarehouseSimulator.nearCollisionCond collisionRadius e p.1)) ::
        WarehouseSimulator.degList collisionRadius
          (rest.map (WarehouseSimulator.indStep collisionRadius e))
termination_by l => l.length
decreasing_by
  simp

/-- Apply the accumulated penalties. -/
def WarehouseSimulator.realize (l : List (EntityState × ℕ)) : List EntityState :=
  l.map (fun p => WarehouseSimulator.scaleT p.1 p.2)

/-- The number of qualifying pairs containing the entity with id `a`. -/
def WarehouseSimulator.collisionDegree (collisionRadius : ℚ) (es : List EntityState)
    (a : String) : ℕ :=
  (WarehouseSimulator.qpairs collisionRadius es).countP
    (fun p => p.1.id == a || p.2.id == a)

/-! #### C4 proofs -/

theorem scaleT_zero (e : EntityState) : WarehouseSimulator.scaleT e 0 = e := by
  cases e
  simp [WarehouseSimulator.scaleT]

theorem halve_scaleT (e : EntityState) (n : ℕ) :
    WarehouseSimulator.halveTargetSpeed (WarehouseSimulator.scaleT e n) =
      WarehouseSimulator.scaleT e (n + 1) := by
  cases e
  simp [WarehouseSimulator.halveTargetSpeed, WarehouseSimulator.scaleT, pow_succ, mul_assoc]
  norm_num

theorem cond_scaleT (radius : ℚ) (e r : EntityState) (a b : ℕ) :
    WarehouseSimulator.nearCollisionCond radius (WarehouseSimulator.scaleT e a)
      (WarehouseSimulator.scaleT r b) = WarehouseSimulator.nearCollisionCond radius e r := rfl

theorem cond_scaleT_left (radius : ℚ) (e r : EntityState) (a : ℕ) :
    WarehouseSimulator.nearCollisionCond radius (WarehouseSimulator.scaleT e a) r =
      WarehouseSimulator.nearCollisionCond radius e r := rfl

theorem mkEv_scaleT (e r : EntityState) (a b : ℕ) :
    WarehouseSimulator.mkNearCollisionEvent (WarehouseSimulator.scaleT e a)
      (WarehouseSimulator.scaleT r b) = WarehouseSimulator.mkNearCollisionEvent e r := rfl

theorem mkEv_scaleT_left (e r : EntityState) (a : ℕ) :
    WarehouseSimulator.mkNearCollisionEvent (WarehouseSimulator.scaleT e a) r =
      WarehouseSimulator.mkNearCollisionEvent e r := rfl

theorem mkEv_scaleT_right (e r : EntityState) (b : ℕ) :
    WarehouseSimulator.mkNearCollisionEvent e (WarehouseSimulator.scaleT r b) =
      WarehouseSimulator.mkNearCollisionEvent e r := rfl

theorem collideRow_realize (radius : ℚ) :
    ∀ (rest : List (EntityState × ℕ)) (e : EntityState) (n : ℕ),
      WarehouseSimulator.collideRow radius (WarehouseSimulator.scaleT e n)
          (WarehouseSimulator.realize rest) =
        (WarehouseSimulator.scaleT e
            (n + rest.countP (fun p => WarehouseSimulator.nearCollisionCond radius e p.1)),
         WarehouseSimulator.realize (rest.map (WarehouseSimulator.indStep radius e)),
         ((rest.map Prod.fst).filter (fun r => WarehouseSimulator.nearCollisionCond radius e r)).map
           (fun r => WarehouseSimulator.mkNearCollisionEvent e r)) := by
  intro rest
  induction rest with
  | nil =>
      intro e n
      simp [WarehouseSimulator.collideRow, WarehouseSimulator.realize]
  | cons p t ih =>
      intro e n
      obtain ⟨r, k⟩ := p
      simp only [WarehouseSimulator.realize, List.map_cons, WarehouseSimulator.collideRow,
        cond_scaleT]
      by_cases hc : WarehouseSimulator.nearCollisionCond radius e r = true
      · rw [if_pos hc]
        rw [halve_scaleT e n, halve_scaleT r k]
        have ih1 := ih e (n + 1)
        rw [show WarehouseSimulator.realize t = t.map (fun p => WarehouseSimulator.scaleT p.1 p.2) from rfl] at ih1
        rw [ih1]
        simp only [WarehouseSimulator.indStep, List.map_cons, List.countP_cons, hc,
          WarehouseSimulator.realize, List.filter_cons, List.map_cons, mkEv_scaleT_left]
        rw [mkEv_scaleT_right]
        have h1 : ∀ c : ℕ, n + 1 + c = n + (c + 1) := fun c => by omega
        simp [h1]
      · rw [if_neg hc]
        have ih1 := ih e n
        rw [show WarehouseSimulator.realize t = t.map (fun p => WarehouseSimulator.scaleT p.1 p.2) from rfl] at ih1
        rw [ih1]
        simp only [WarehouseSimulator.indStep, List.map_cons, List.countP_cons, hc,
          WarehouseSimulator.realize, List.filter_cons, List.map_cons]
        simp

theorem indStep_fst (radius : ℚ) (e : EntityState) (l : List (EntityState × ℕ)) :
    (l.map (WarehouseSimulator.indStep radius e)).map Prod.fst = l.map Prod.fst := by
  induction l with
  | nil => rfl
  | cons p t ih => simp [WarehouseSimulator.indStep, ih]

theorem collideAll_realize (radius : ℚ) :
    ∀ (l : List (EntityState × ℕ)),
      WarehouseSimulator.collideAll radius (WarehouseSimulator.realize l) =
        (WarehouseSimulator.realize (WarehouseSimulator.degList radius l),
         (WarehouseSimulator.qpairs radius (l.map Prod.fst)).map
           (fun p => WarehouseSimulator.mkNearCollisionEvent p.1 p.2)) := by
  have main : ∀ (N : ℕ) (l : List (EntityState × ℕ)), l.length ≤ N →
      WarehouseSimulator.collideAll radius (WarehouseSimulator.realize l) =
        (WarehouseSimulator.realize (WarehouseSimulator.degList radius l),
         (WarehouseSimulator.qpairs radius (l.map Prod.fst)).map
           (fun p => WarehouseSimulator.mkNearCollisionEvent p.1 p.2)) := by
    intro N
    induction N with
    | zero =>
        intro l hl
        rw [List.eq_nil_of_length_eq_zero (Nat.le_zero.1 hl)]
        simp [WarehouseSimulator.collideAll, WarehouseSimulator.realize,
          WarehouseSimulator.degList, WarehouseSimulator.qpairs]
    | succ N ih =>
        intro l hl
        match l with
        | [] =>
            simp [WarehouseSimulator.collideAll, WarehouseSimulator.realize,
              WarehouseSimulator.degList, WarehouseSimulator.qpairs]
        | (e, n) :: rest =>
            have hrow := collideRow_realize radius rest e n
            have hlen : (rest.map (WarehouseSimulator.indStep radius e)).length ≤ N := by
              simp only [List.length_map]
              have := hl
              simp only [List.length_cons] at this
              omega
            have hrec := ih (rest.map (WarehouseSimulator.indStep radius e)) hlen
            have hreal : WarehouseSimulator.realize ((e, n) :: rest) =
                WarehouseSimulator.scaleT e n :: WarehouseSimulator.realize rest := rfl
            rw [hreal]
            simp only [WarehouseSimulator.collideAll]
            rw [hrow]
            dsimp only
            rw [hrec]
            simp only [WarehouseSimulator.degList]
            simp only [WarehouseSimulator.realize, List.map_cons, indStep_fst, Prod.mk.injEq]
            refine ⟨trivial, ?_⟩
            rw [WarehouseSimulator.qpairs]
            simp [List.map_map, Function.comp]
  intro l
  exact main l.length l le_rfl

theorem countP_id_unique (q : EntityState → Bool) :
    ∀ (es : List EntityState) (x : EntityState),
      (es.map EntityState.id).Nodup → x ∈ es →
      es.countP (fun r => q r && r.id == x.id) = if q x then 1 else 0 := by
  intro es
  induction es with
  | nil => intro x _ hx; exact absurd hx (List.not_mem_nil x)
  | cons e t ih =>
      intro x hnd hx
      rw [List.map_cons, List.nodup_cons] at hnd
      rw [List.countP_cons]
      rcases List.mem_cons.1 hx with h | hx'
      · subst h
        have htail : t.countP (fun r => q r && r.id == x.id) = 0 := by
          rw [List.countP_eq_zero]
          intro r hr
          simp only [Bool.and_eq_true, beq_iff_eq, not_and]
          intro _ hid
          exact hnd.1 (hid ▸ List.mem_map_of_mem EntityState.id hr)
        rw [htail]
        simp
      · have hne : e.id ≠ x.id := by
          intro hEq
          exact hnd.1 (hEq ▸ List.mem_map_of_mem EntityState.id hx')
        rw [ih x hnd.2 hx']
        simp [hne]

theorem qpairs_mem (radius : ℚ) :
    ∀ (es : List EntityState) (p : EntityState × EntityState),
      p ∈ WarehouseSimulator.qpairs radius es → p.1 ∈ es ∧ p.2 ∈ es := by
  intro es
  induction es with
  | nil => intro p hp; exact absurd hp (List.not_mem_nil p)
  | cons e t ih =>
      intro p hp
      rw [WarehouseSimulator.qpairs, List.mem_append] at hp
      rcases hp with hp | hp
      · obtain ⟨r, hr, rfl⟩ := List.mem_map.1 hp
        exact ⟨List.mem_cons_self e t, List.mem_cons_of_mem e (List.mem_of_mem_filter hr)⟩
      · obtain ⟨h1, h2⟩ := ih p hp
        exact ⟨List.mem_cons_of_mem e h1, List.mem_cons_of_mem e h2⟩

theorem collisionDegree_head (radius : ℚ) (e : EntityState) (fsts : List EntityState)
    (hnd : ((e :: fsts).map EntityState.id).Nodup) :
    WarehouseSimulator.collisionDegree radius (e :: fsts) e.id =
      fsts.countP (fun r => WarehouseSimulator.nearCollisionCond radius e r) := by
  rw [List.map_cons, List.nodup_cons] at hnd
  unfold WarehouseSimulator.collisionDegree
  rw [WarehouseSimulator.qpairs, List.countP_append, List.countP_map]
  have h2 : (WarehouseSimulator.qpairs radius fsts).countP
      (fun p => p.1.id == e.id || p.2.id == e.id) = 0 := by
    rw [List.countP_eq_zero]
    intro p hp
    obtain ⟨h1m, h2m⟩ := qpairs_mem radius fsts p hp
    simp only [Bool.or_eq_true, beq_iff_eq, not_or]
    exact ⟨fun hEq => hnd.1 (hEq ▸ List.mem_map_of_mem EntityState.id h1m),
           fun hEq => hnd.1 (hEq ▸ List.mem_map_of_mem EntityState.id h2m)⟩
  rw [h2, Nat.add_zero]
  have h1 : (fsts.filter (fun r => WarehouseSimulator.nearCollisionCond radius e r)).countP
      ((fun p : EntityState × EntityState => p.1.id == e.id || p.2.id == e.id) ∘
        (fun r => (e, r))) =
      (fsts.filter (fun r => WarehouseSimulator.nearCollisionCond radius e r)).length := by
    rw [List.countP_eq_length]
    intro r _
    simp
  rw [h1, ← List.countP_eq_length_filter]

theorem collisionDegree_tail (radius : ℚ) (e x : EntityState) (fsts : List EntityState)
    (hnd : ((e :: fsts).map EntityState.id).Nodup) (hx : x ∈ fsts) :
    WarehouseSimulator.collisionDegree radius (e :: fsts) x.id =
      (if WarehouseSimulator.nearCollisionCond radius e x then 1 else 0) +
        WarehouseSimulator.collisionDegree radius fsts x.id := by
  have hnd' := hnd
  rw [List.map_cons, List.nodup_cons] at hnd'
  have hne : e.id ≠ x.id := fun hEq => hnd'.1 (hEq ▸ List.mem_map_of_mem EntityState.id hx)
  unfold WarehouseSimulator.collisionDegree
  rw [WarehouseSimulator.qpairs, List.countP_append, List.countP_map]
  have h1 : (fsts.filter (fun r => WarehouseSimulator.nearCollisionCond radius e r)).countP
      ((fun p : EntityState × EntityState => p.1.id == x.id || p.2.id == x.id) ∘
        (fun r => (e, r))) =
      (if WarehouseSimulator.nearCollisionCond radius e x then 1 else 0) := by
    have hcongr : (fsts.filter (fun r => WarehouseSimulator.nearCollisionCond radius e r)).countP
        ((fun p : EntityState × EntityState => p.1.id == x.id || p.2.id == x.id) ∘
          (fun r => (e, r))) =
        (fsts.filter (fun r => WarehouseSimulator.nearCollisionCond radius e r)).countP
          (fun r => r.id == x.id) := by
      apply List.countP_congr
      intro r _
      simp [hne]
    rw [hcongr, List.countP_filter]
    have hcongr2 : fsts.countP
        (fun a => a.id == x.id && WarehouseSimulator.nearCollisionCond radius e a) =
        fsts.countP
          (fun a => WarehouseSimulator.nearCollisionCond radius e a && a.id == x.id) := by
      apply List.countP_congr
      intro r _
      rw [Bool.and_comm]
    rw [hcongr2]
    exact countP_id_unique (fun r => WarehouseSimulator.nearCollisionCond radius e r)
      fsts x hnd'.2 hx
  rw [h1]

theorem degList_eq_map (radius : ℚ) :
    ∀ (l : List (EntityState × ℕ)),
      ((l.map Prod.fst).map EntityState.id).Nodup →
      WarehouseSimulator.degList radius l =
        l.map (fun p => (p.1,
          p.2 + WarehouseSimulator.collisionDegree radius (l.map Prod.fst) p.1.id)) := by
  have main : ∀ (N : ℕ) (l : List (EntityState × ℕ)), l.length ≤ N →
      ((l.map Prod.fst).map EntityState.id).Nodup →
      WarehouseSimulator.degList radius l =
        l.map (fun p => (p.1,
          p.2 + WarehouseSimulator.collisionDegree radius (l.map Prod.fst) p.1.id)) := by
    intro N
    induction N with
    | zero =>
        intro l hl _
        rw [List.eq_nil_of_length_eq_zero (Nat.le_zero.1 hl)]
        simp [WarehouseSimulator.degList]
    | succ N ih =>
        intro l hl hnd
        match l with
        | [] => simp [WarehouseSimulator.degList]
        | (e, n) :: rest =>
            simp only [List.map_cons] at hnd
            have hndfst : ((e :: rest.map Prod.fst).map EntityState.id).Nodup := by
              simpa using hnd
            have hlen : (rest.map (WarehouseSimulator.indStep radius e)).length ≤ N := by
              simp only [List.length_map]
              have := hl
              simp only [List.length_cons] at this
              omega
            have hndrec : (((rest.map (WarehouseSimulator.indStep radius e)).map Prod.fst).map
                EntityState.id).Nodup := by
              rw [indStep_fst]
              exact (List.nodup_cons.1 (by simpa using hnd)).2
            have hrec := ih (rest.map (WarehouseSimulator.indStep radius e)) hlen hndrec
            simp only [WarehouseSimulator.degList]
            rw [hrec]
            rw [List.map_cons]
            have hhead : n + rest.countP
                (fun p => WarehouseSimulator.nearCollisionCond radius e p.1) =
                n + WarehouseSimulator.collisionDegree radius
                  ((e, n).1 :: rest.map Prod.fst) (e, n).1.id := by
              rw [collisionDegree_head radius e (rest.map Prod.fst) hndfst]
              rw [List.countP_map]
              rfl
            rw [List.map_map]
            apply List.cons_eq_cons.2
            refine ⟨by rw [hhead]; simp, ?_⟩
            apply List.map_congr_left
            intro p hp
            simp only [Function.comp, WarehouseSimulator.indStep, indStep_fst, List.map_cons]
            have hx : p.1 ∈ rest.map Prod.fst := List.mem_map_of_mem Prod.fst hp
            rw [collisionDegree_tail radius e p.1 (rest.map Prod.fst) hndfst hx]
            rw [Prod.mk.injEq]
            exact ⟨rfl, by omega⟩
  intro l hnd
  exact main l.length l le_rfl hnd


theorem nodup_id_get_ne (es : List EntityState) (hnd : (es.map EntityState.id).Nodup)
    (i j : Fin es.length) (hij : i.1 ≠ j.1) : (es.get i).id ≠ (es.get j).id := by
  intro hEq
  apply hij
  have h1 : (es.map EntityState.id).get ⟨i.1, by simpa using i.2⟩ =
      (es.map EntityState.id).get ⟨j.1, by simpa using j.2⟩ := by
    rw [List.get_map, List.get_map]
    simpa using hEq
  have h2 := (List.Nodup.get_inj_iff hnd).1 h1
  simpa using h2

theorem qpairs_countP_both (radius : ℚ) :
    ∀ (es : List EntityState), (es.map EntityState.id).Nodup →
      ∀ (i j : ℕ) (hij : i < j) (hj : j < es.length),
        (WarehouseSimulator.qpairs radius es).countP (fun p =>
          (p.1.id == (es.get ⟨i, Nat.lt_trans hij hj⟩).id ||
           p.2.id == (es.get ⟨i, Nat.lt_trans hij hj⟩).id) &&
          (p.1.id == (es.get ⟨j, hj⟩).id || p.2.id == (es.get ⟨j, hj⟩).id)) =
        if WarehouseSimulator.nearCollisionCond radius (es.get ⟨i, Nat.lt_trans hij hj⟩)
            (es.get ⟨j, hj⟩)
        then 1 else 0 := by
  intro es
  induction es with
  | nil =>
      intro _ i j hij hj
      exact absurd hj (Nat.not_lt_zero j)
  | cons e t ih =>
      intro hnd i j hij hj
      have hnd' := hnd
      rw [List.map_cons, List.nodup_cons] at hnd'
      match j, hj with
      | j' + 1, hj =>
        have hj' : j' < t.length := Nat.lt_of_succ_lt_succ hj
        have hxj : (e :: t).get ⟨j' + 1, hj⟩ = t.get ⟨j', hj'⟩ := rfl
        cases i with
        | zero =>
            have hxi : (e :: t).get ⟨0, Nat.lt_trans hij hj⟩ = e := rfl
            rw [hxi, hxj]
            have hxmem : t.get ⟨j', hj'⟩ ∈ t := List.get_mem t j' hj'
            have hne : e.id ≠ (t.get ⟨j', hj'⟩).id := by
              intro hEq
              exact hnd'.1 (hEq ▸ List.mem_map_of_mem EntityState.id hxmem)
            rw [WarehouseSimulator.qpairs, List.countP_append, List.countP_map]
            have h2 : (WarehouseSimulator.qpairs radius t).countP (fun p =>
                (p.1.id == e.id || p.2.id == e.id) &&
                (p.1.id == (t.get ⟨j', hj'⟩).id || p.2.id == (t.get ⟨j', hj'⟩).id)) = 0 := by
              rw [List.countP_eq_zero]
              intro p hp
              obtain ⟨h1m, h2m⟩ := qpairs_mem radius t p hp
              simp only [Bool.and_eq_true, Bool.or_eq_true, beq_iff_eq, not_and, not_or]
              intro hfirst
              exfalso
              rcases hfirst with hEq | hEq
              · exact hnd'.1 (hEq ▸ List.mem_map_of_mem EntityState.id h1m)
              · exact hnd'.1 (hEq ▸ List.mem_map_of_mem EntityState.id h2m)
            rw [h2, Nat.add_zero]
            have h1 : (t.filter (fun r => WarehouseSimulator.nearCollisionCond radius e r)).countP
                ((fun p : EntityState × EntityState =>
                  (p.1.id == e.id || p.2.id == e.id) &&
                  (p.1.id == (t.get ⟨j', hj'⟩).id || p.2.id == (t.get ⟨j', hj'⟩).id)) ∘
                  (fun r => (e, r))) =
                (t.filter (fun r => WarehouseSimulator.nearCollisionCond radius e r)).countP
                  (fun r => r.id == (t.get ⟨j', hj'⟩).id) := by
              apply List.countP_congr
              intro r _
              simp only [Function.comp_apply, beq_self_eq_true, Bool.true_or, Bool.true_and]
              have : (e.id == (t.get ⟨j', hj'⟩).id) = false := by
                simp only [beq_eq_false_iff_ne, ne_eq]
                exact hne
              rw [this, Bool.false_or]
            rw [h1, List.countP_filter]
            have h3 : t.countP (fun a => a.id == (t.get ⟨j', hj'⟩).id &&
                WarehouseSimulator.nearCollisionCond radius e a) =
                t.countP (fun a => WarehouseSimulator.nearCollisionCond radius e a &&
                  a.id == (t.get ⟨j', hj'⟩).id) := by
              apply List.countP_congr
              intro r _
              rw [Bool.and_comm]
            rw [h3]
            exact countP_id_unique (fun r => WarehouseSimulator.nearCollisionCond radius e r)
              t (t.get ⟨j', hj'⟩) hnd'.2 hxmem
        | succ i' =>
            have hi' : i' < t.length := Nat.lt_of_succ_lt_succ (Nat.lt_trans hij hj)
            have hij' : i' < j' := Nat.lt_of_succ_lt_succ hij
            have hxi : (e :: t).get ⟨i' + 1, Nat.lt_trans hij hj⟩ = t.get ⟨i', hi'⟩ := rfl
            rw [hxi, hxj]
            have himem : t.get ⟨i', hi'⟩ ∈ t := List.get_mem t i' hi'
            have hjmem : t.get ⟨j', hj'⟩ ∈ t := List.get_mem t j' hj'
            have hnea : e.id ≠ (t.get ⟨i', hi'⟩).id := by
              intro hEq
              exact hnd'.1 (hEq ▸ List.mem_map_of_mem EntityState.id himem)
            have hneb : e.id ≠ (t.get ⟨j', hj'⟩).id := by
              intro hEq
              exact hnd'.1 (hEq ▸ List.mem_map_of_mem EntityState.id hjmem)
            have hab : (t.get ⟨i', hi'⟩).id ≠ (t.get ⟨j', hj'⟩).id :=
              nodup_id_get_ne t hnd'.2 ⟨i', hi'⟩ ⟨j', hj'⟩ (by simpa using Nat.ne_of_lt hij')
            rw [WarehouseSimulator.qpairs, List.countP_append, List.countP_map]
            have h1 : (t.filter (fun r => WarehouseSimulator.nearCollisionCond radius e r)).countP
                ((fun p : EntityState × EntityState =>
                  (p.1.id == (t.get ⟨i', hi'⟩).id || p.2.id == (t.get ⟨i', hi'⟩).id) &&
                  (p.1.id == (t.get ⟨j', hj'⟩).id || p.2.id == (t.get ⟨j', hj'⟩).id)) ∘
                  (fun r => (e, r))) = 0 := by
              rw [List.countP_eq_zero]
              intro r _
              simp only [Function.comp_apply, Bool.and_eq_true, Bool.or_eq_true, beq_iff_eq,
                not_and, not_or]
              intro hfirst
              rcases hfirst with hEa | hEa
              · exact absurd hEa hnea
              · exact ⟨hneb, fun hEb => hab (hEa.symm.trans hEb)⟩
            rw [h1, Nat.zero_add]
            exact ih hnd'.2 i' j' hij' hj'

theorem congestionEvents_type (congestionThreshold : ℚ) (es : List EntityState) :
    ∀ ev ∈ WarehouseSimulator.congestionEvents congestionThreshold es,
      ev.type = DTEventType.congestion := by
  intro ev hev
  unfold WarehouseSimulator.congestionEvents at hev
  obtain ⟨entry, _, hentry⟩ := List.mem_filterMap.1 hev
  unfold WarehouseSimulator.congEmit at hentry
  split at hentry
  · rw [← Option.some_inj.1 hentry]
  · exact absurd hentry (by simp)

theorem realize_zero (es : List EntityState) :
    WarehouseSimulator.realize (es.map (fun e => (e, 0))) = es := by
  unfold WarehouseSimulator.realize
  rw [List.map_map]
  calc es.map ((fun p : EntityState × ℕ => WarehouseSimulator.scaleT p.1 p.2) ∘
        (fun e => (e, 0)))
      = es.map id := List.map_congr_left (fun e _ => scaleT_zero e)
    _ = es := List.map_id es

/-- C4: in one `checkProximityEvents` pass, every qualifying unordered
pair (distance below the collision radius with at least one entity above
the motion threshold 0.1) produces exactly one near-collision event
referencing both entity ids, non-qualifying pairs produce none, and each
entity's target speed is multiplied by 0.5 once per qualifying pair it
belongs to (so entities in no qualifying pair keep their target speed;
positions, speeds, ids and lanes are never touched). -/
theorem checkProximityEvents_pairs (collisionRadius congestionThreshold : ℚ)
    (hr : 0 ≤ collisionRadius)
    (es : List EntityState) (hids : (es.map EntityState.id).Nodup) :
    (∀ (i j : ℕ) (hij : i < j) (hj : j < es.length),
      ((WarehouseSimulator.checkProximityEvents collisionRadius congestionThreshold es).2.countP
        (fun ev => ev.type == DTEventType.nearCollision &&
          ev.assetIds.contains (es.get ⟨i, Nat.lt_trans hij hj⟩).id &&
          ev.assetIds.contains (es.get ⟨j, hj⟩).id)) =
        if WarehouseSimulator.nearCollisionCond collisionRadius
            (es.get ⟨i, Nat.lt_trans hij hj⟩) (es.get ⟨j, hj⟩) then 1 else 0) ∧
    (WarehouseSimulator.checkProximityEvents collisionRadius congestionThreshold es).1 =
      es.map (fun e => WarehouseSimulator.scaleT e
        (WarehouseSimulator.collisionDegree collisionRadius es e.id)) := by
  have hfst : (es.map (fun e => (e, (0 : ℕ)))).map Prod.fst = es := by
    rw [List.map_map]
    calc es.map (Prod.fst ∘ (fun e => (e, (0 : ℕ))))
        = es.map id := List.map_congr_left (fun e _ => rfl)
      _ = es := List.map_id es
  have hca := collideAll_realize collisionRadius (es.map (fun e => (e, 0)))
  rw [realize_zero, hfst] at hca
  have hnd0 : (((es.map (fun e => (e, (0 : ℕ)))).map Prod.fst).map EntityState.id).Nodup := by
    rw [hfst]
    exact hids
  have hdeg := degList_eq_map collisionRadius (es.map (fun e => (e, 0))) hnd0
  rw [hfst] at hdeg
  unfold WarehouseSimulator.checkProximityEvents
  rw [hca]
  dsimp only
  constructor
  · intro i j hij hj
    rw [List.countP_append]
    have hcong : (WarehouseSimulator.congestionEvents congestionThreshold
        (WarehouseSimulator.realize (WarehouseSimulator.degList collisionRadius
          (es.map (fun e => (e, 0)))))).countP
        (fun ev => ev.type == DTEventType.nearCollision &&
          ev.assetIds.contains (es.get ⟨i, Nat.lt_trans hij hj⟩).id &&
          ev.assetIds.contains (es.get ⟨j, hj⟩).id) = 0 := by
      rw [List.countP_eq_zero]
      intro ev hev
      have := congestionEvents_type congestionThreshold _ ev hev
      simp [this]
    rw [hcong, Nat.add_zero, List.countP_map]
    have hpt : ∀ p ∈ WarehouseSimulator.qpairs collisionRadius es,
        ((fun ev => ev.type == DTEventType.nearCollision &&
          ev.assetIds.contains (es.get ⟨i, Nat.lt_trans hij hj⟩).id &&
          ev.assetIds.contains (es.get ⟨j, hj⟩).id) ∘
          (fun p : EntityState × EntityState =>
            WarehouseSimulator.mkNearCollisionEvent p.1 p.2)) p =
        ((p.1.id == (es.get ⟨i, Nat.lt_trans hij hj⟩).id ||
          p.2.id == (es.get ⟨i, Nat.lt_trans hij hj⟩).id) &&
         (p.1.id == (es.get ⟨j, hj⟩).id || p.2.id == (es.get ⟨j, hj⟩).id)) := by
      intro p _
      apply Bool.coe_iff_coe.mp
      simp only [Function.comp_apply, WarehouseSimulator.mkNearCollisionEvent,
        Bool.and_eq_true, Bool.or_eq_true, beq_iff_eq, List.contains_cons,
        List.contains_nil, Bool.or_false, decide_eq_true_eq]
      tauto
    have hcount : (WarehouseSimulator.qpairs collisionRadius es).countP
        ((fun ev => ev.type == DTEventType.nearCollision &&
          ev.assetIds.contains (es.get ⟨i, Nat.lt_trans hij hj⟩).id &&
          ev.assetIds.contains (es.get ⟨j, hj⟩).id) ∘
          (fun p : EntityState × EntityState =>
            WarehouseSimulator.mkNearCollisionEvent p.1 p.2)) =
        (WarehouseSimulator.qpairs collisionRadius es).countP (fun p =>
          (p.1.id == (es.get ⟨i, Nat.lt_trans hij hj⟩).id ||
           p.2.id == (es.get ⟨i, Nat.lt_trans hij hj⟩).id) &&
          (p.1.id == (es.get ⟨j, hj⟩).id || p.2.id == (es.get ⟨j, hj⟩).id)) := by
      apply List.countP_congr
      intro p hp
      rw [hpt p hp]
    rw [hcount]
    exact qpairs_countP_both collisionRadius es hids i j hij hj
  · rw [hdeg]
    unfold WarehouseSimulator.realize
    rw [List.map_map, List.map_map]
    apply List.map_congr_left
    intro e _
    simp

/-- C4 witness fixture: a worker moving at speed 0.5. -/
def wProxE1 : EntityState :=
  ⟨"w1", .worker, 0, 0, 0.5, 0, 1, some "L1", 0, [], 0, 0, none, none⟩

/-- C4 witness fixture: a stationary worker 1.0 unit away. -/
def wProxE2 : EntityState :=
  ⟨"w2", .worker, 1, 0, 0, 0, 1, some "L1", 0, [], 0, 0, none, none⟩

/-- Witness for C4: the spec's scenario (two entities 1.0 apart, collision
radius 1.5, one speed 0.5, congestion threshold 3). -/
theorem checkProximityEvents_pairs_witness :
    ((WarehouseSimulator.checkProximityEvents 1.5 3 [wProxE1, wProxE2]).2.countP
      (fun ev => ev.type == DTEventType.nearCollision &&
        ev.assetIds.contains (([wProxE1, wProxE2].get ⟨0, by decide⟩)).id &&
        ev.assetIds.contains (([wProxE1, wProxE2].get ⟨1, by decide⟩)).id)) =
      (if WarehouseSimulator.nearCollisionCond 1.5 ([wProxE1, wProxE2].get ⟨0, by decide⟩)
          ([wProxE1, wProxE2].get ⟨1, by decide⟩) then 1 else 0) :=
  (checkProximityEvents_pairs 1.5 3 (by norm_num) [wProxE1, wProxE2]
    (by simp [wProxE1, wProxE2])).1 0 1 (by decide) (by decide)
/-! #### C5 proofs -/

theorem mapGetD_cons (en : String × List String) (m : List (String × List String))
    (k : String) :
    mapGetD (en :: m) k = if en.1 == k then en.2 else mapGetD m k := by
  unfold mapGetD
  rw [List.find?_cons]
  by_cases h : en.1 == k
  · simp [h]
  · simp [h]

theorem mapGetD_eq_nil_of_not_mem (m : List (String × List String)) (k : String)
    (h : k ∉ m.map Prod.fst) : mapGetD m k = [] := by
  unfold mapGetD
  cases hf : m.find? (fun e => e.1 == k) with
  | none => rfl
  | some en =>
      have hk : en.1 = k := by simpa using List.find?_some hf
      exact absurd (List.mem_map.2 ⟨en, List.mem_of_find?_eq_some hf, hk⟩) h

theorem mapGetD_update (m : List (String × List String)) (l a : String) :
    mapGetD (m.map (fun en => if en.1 == l then (en.1, en.2 ++ [a]) else en)) l =
      if m.any (fun en => en.1 == l) then mapGetD m l ++ [a] else [] := by
  induction m with
  | nil => simp [mapGetD]
  | cons h t ih =>
      rw [List.map_cons]
      by_cases hh : (h.1 == l) = true
      · rw [if_pos hh, mapGetD_cons, if_pos hh]
        rw [List.any_cons, hh, Bool.true_or, if_pos rfl, mapGetD_cons, if_pos hh]
      · rw [if_neg hh, mapGetD_cons]
        rw [Bool.not_eq_true] at hh
        rw [hh]
        rw [List.any_cons, hh, Bool.false_or, mapGetD_cons, hh]
        simp only [Bool.false_eq_true, if_false]
        exact ih

theorem mapGetD_update_ne (m : List (String × List String)) (l k a : String)
    (hkl : k ≠ l) :
    mapGetD (m.map (fun en => if en.1 == l then (en.1, en.2 ++ [a]) else en)) k =
      mapGetD m k := by
  induction m with
  | nil => rfl
  | cons h t ih =>
      rw [List.map_cons]
      by_cases hh : (h.1 == l) = true
      · have hl : h.1 = l := by simpa using hh
        have hk : (h.1 == k) = false := by
          simp only [beq_eq_false_iff_ne, hl]
          exact fun he => hkl he.symm
        rw [if_pos hh, mapGetD_cons, mapGetD_cons, hk]
        simp only [Bool.false_eq_true, if_false]
        exact ih
      · rw [if_neg hh, mapGetD_cons, mapGetD_cons]
        by_cases hk : (h.1 == k) = true
        · rw [if_pos hk, if_pos hk]
        · rw [if_neg hk, if_neg hk]
          exact ih

theorem mapGetD_append_ne (m : List (String × List String)) (l k : String)
    (v : List String) (hkl : k ≠ l) :
    mapGetD (m ++ [(l, v)]) k = mapGetD m k := by
  induction m with
  | nil =>
      have hlk : ((l, v).1 == k) = false := by
        simp only [beq_eq_false_iff_ne]
        exact fun he => hkl he.symm
      rw [List.nil_append, mapGetD_cons, hlk]
      simp only [Bool.false_eq_true, if_false]
  | cons h t ih =>
      rw [List.cons_append, mapGetD_cons, mapGetD_cons]
      by_cases hk : (h.1 == k) = true
      · rw [if_pos hk, if_pos hk]
      · rw [if_neg hk, if_neg hk]
        exact ih

theorem mapGetD_append_self (m : List (String × List String)) (l : String)
    (v : List String) (hab : m.any (fun en => en.1 == l) = false) :
    mapGetD (m ++ [(l, v)]) l = v := by
  induction m with
  | nil =>
      rw [List.nil_append, mapGetD_cons]
      simp
  | cons h t ih =>
      rw [List.any_cons, Bool.or_eq_false_iff] at hab
      rw [List.cons_append, mapGetD_cons, hab.1]
      simp only [Bool.false_eq_true, if_false]
      exact ih hab.2

theorem mapGetD_nil_of_not_any (m : List (String × List String)) (l : String)
    (hab : m.any (fun en => en.1 == l) = false) :
    mapGetD m l = [] := by
  induction m with
  | nil => rfl
  | cons h t ih =>
      rw [List.any_cons, Bool.or_eq_false_iff] at hab
      rw [mapGetD_cons, hab.1]
      simp only [Bool.false_eq_true, if_false]
      exact ih hab.2

theorem occInsert_none (m : List (String × List String)) (e : EntityState)
    (h : e.currentLaneId = none) : WarehouseSimulator.occInsert m e = m := by
  unfold WarehouseSimulator.occInsert
  rw [h]

theorem occInsert_some (m : List (String × List String)) (e : EntityState)
    (l : String) (h : e.currentLaneId = some l) :
    WarehouseSimulator.occInsert m e =
      if l = "" then m
      else if m.any (fun en => en.1 == l) then
        m.map (fun en => if en.1 == l then (en.1, en.2 ++ [e.id]) else en)
      else m ++ [(l, [e.id])] := by
  unfold WarehouseSimulator.occInsert
  rw [h]

theorem mapGetD_occInsert (m : List (String × List String)) (e : EntityState)
    (lid : String) (hlid : lid ≠ "") :
    mapGetD (WarehouseSimulator.occInsert m e) lid =
      mapGetD m lid ++ (if e.currentLaneId == some lid then [e.id] else []) := by
  cases hcl : e.currentLaneId with
  | none =>
      rw [occInsert_none m e hcl]
      simp
  | some l =>
      rw [occInsert_some m e l hcl]
      by_cases hl : l = ""
      · subst hl
        have hne : (some "" == some lid) = false := by
          simp only [beq_eq_false_iff_ne]
          exact fun he => hlid (Option.some_inj.1 he).symm
        rw [if_pos rfl, hne]
        simp
      · rw [if_neg hl]
        by_cases hll : l = lid
        · subst hll
          have heq : (some l == some l) = true := by simp
          by_cases hany : m.any (fun en => en.1 == l) = true
          · rw [if_pos hany, mapGetD_update, if_pos hany, if_pos heq]
          · rw [if_neg hany]
            rw [Bool.not_eq_true] at hany
            rw [mapGetD_append_self m l [e.id] hany, mapGetD_nil_of_not_any m l hany,
              if_pos heq]
            rfl
        · have hne : (some l == some lid) = false := by
            simp only [beq_eq_false_iff_ne]
            exact fun he => hll (Option.some_inj.1 he)
          rw [if_neg (show ¬((some l == some lid) = true) by simp [hne]),
            List.append_nil]
          by_cases hany : m.any (fun en => en.1 == l) = true
          · rw [if_pos hany]
            exact mapGetD_update_ne m l lid e.id (fun he => hll he.symm)
          · rw [if_neg hany]
            exact mapGetD_append_ne m l lid [e.id] (fun he => hll he.symm)

theorem occFold_getD (lid : String) (hlid : lid ≠ "") :
    ∀ (es : List EntityState) (acc : List (String × List String)),
      mapGetD (es.foldl WarehouseSimulator.occInsert acc) lid =
        mapGetD acc lid ++
          (es.filter (fun e => e.currentLaneId == some lid)).map EntityState.id := by
  intro es
  induction es with
  | nil =>
      intro acc
      simp
  | cons e t ih =>
      intro acc
      rw [List.foldl_cons, ih, mapGetD_occInsert acc e lid hlid, List.filter_cons]
      by_cases hc : (e.currentLaneId == some lid) = true
      · rw [if_pos hc, if_pos hc, List.map_cons, List.append_assoc,
          List.singleton_append]
      · rw [if_neg hc, if_neg hc]
        simp

theorem laneOccupancy_getD (es : List EntityState) (lid : String) (hlid : lid ≠ "") :
    mapGetD (WarehouseSimulator.laneOccupancy es) lid =
      (es.filter (fun e => e.currentLaneId == some lid)).map EntityState.id := by
  unfold WarehouseSimulator.laneOccupancy
  rw [occFold_getD lid hlid es []]
  rfl

theorem occInsert_keys_nodup (m : List (String × List String)) (e : EntityState)
    (h : (m.map Prod.fst).Nodup) :
    ((WarehouseSimulator.occInsert m e).map Prod.fst).Nodup := by
  cases hcl : e.currentLaneId with
  | none =>
      rw [occInsert_none m e hcl]
      exact h
  | some l =>
      rw [occInsert_some m e l hcl]
      by_cases hl : l = ""
      · rw [if_pos hl]
        exact h
      · rw [if_neg hl]
        by_cases hany : m.any (fun en => en.1 == l) = true
        · rw [if_pos hany]
          have hkeys :
              (m.map (fun en => if en.1 == l then (en.1, en.2 ++ [e.id]) else en)).map
                Prod.fst = m.map Prod.fst := by
            rw [List.map_map]
            apply List.map_congr_left
            intro x _
            show (if x.1 == l then (x.1, x.2 ++ [e.id]) else x).1 = x.1
            split
            · rfl
            · rfl
          rw [hkeys]
          exact h
        · rw [if_neg hany]
          rw [Bool.not_eq_true] at hany
          have hnotin : l ∉ m.map Prod.fst := by
            intro hmem
            obtain ⟨x, hx, hxl⟩ := List.mem_map.1 hmem
            have := List.any_eq_false.mp hany x hx
            simp [hxl] at this
          rw [List.map_append]
          simp [List.nodup_append, h, hnotin]

theorem occFold_keys_nodup :
    ∀ (es : List EntityState) (acc : List (String × List String)),
      (acc.map Prod.fst).Nodup →
      (((es.foldl WarehouseSimulator.occInsert acc)).map Prod.fst).Nodup := by
  intro es
  induction es with
  | nil =>
      intro acc h
      exact h
  | cons e t ih =>
      intro acc h
      rw [List.foldl_cons]
      exact ih _ (occInsert_keys_nodup acc e h)

theorem laneOccupancy_keys_nodup (es : List EntityState) :
    ((WarehouseSimulator.laneOccupancy es).map Prod.fst).Nodup :=
  occFold_keys_nodup es [] (by simp)

theorem congestion_filter_none (thr : ℚ) (lid : String)
    (t : List (String × List String)) (hnot : lid ∉ t.map Prod.fst) :
    ((t.filterMap (WarehouseSimulator.congEmit thr)).filter
      (fun ev => ev.type == DTEventType.congestion && ev.zoneId == lid)) = [] := by
  rw [List.filter_eq_nil_iff]
  intro ev hev
  obtain ⟨en, hen, hf⟩ := List.mem_filterMap.1 hev
  unfold WarehouseSimulator.congEmit at hf
  by_cases hemit : ((en.2.length : ℚ) ≥ thr)
  · rw [if_pos hemit] at hf
    have hev' : ev = ⟨DTEventType.congestion, en.2, en.1⟩ := (Option.some_inj.1 hf).symm
    subst hev'
    simp only [Bool.and_eq_true, beq_iff_eq, not_and]
    intro _ hz
    exact hnot (List.mem_map.2 ⟨en, hen, hz⟩)
  · rw [if_neg hemit] at hf
    exact absurd hf (by simp)

theorem congestion_filter (thr : ℚ) (lid : String) :
    ∀ (m : List (String × List String)), (m.map Prod.fst).Nodup →
      ((m.filterMap (WarehouseSimulator.congEmit thr)).filter
        (fun ev => ev.type == DTEventType.congestion && ev.zoneId == lid)) =
      (if ((mapGetD m lid).length : ℚ) ≥ thr ∧ lid ∈ m.map Prod.fst then
        [{ type := DTEventType.congestion, assetIds := mapGetD m lid, zoneId := lid }]
      else []) := by
  intro m
  induction m with
  | nil =>
      intro _
      simp
  | cons en0 t ih =>
      intro hnd
      rw [List.map_cons, List.nodup_cons] at hnd
      by_cases hkey : en0.1 = lid
      · have hnotin : lid ∉ t.map Prod.fst := hkey ▸ hnd.1
        have hgd : mapGetD (en0 :: t) lid = en0.2 := by
          rw [mapGetD_cons]
          simp [hkey]
        have hmem : lid ∈ (en0 :: t).map Prod.fst := by
          rw [List.map_cons, hkey]
          exact List.mem_cons_self _ _
        have htail := congestion_filter_none thr lid t hnotin
        by_cases hemit : ((en0.2.length : ℚ) ≥ thr)
        · have hf : WarehouseSimulator.congEmit thr en0 =
              some ⟨DTEventType.congestion, en0.2, en0.1⟩ := by
            unfold WarehouseSimulator.congEmit
            rw [if_pos hemit]
          rw [List.filterMap_cons_some hf, List.filter_cons]
          have hpass : (((⟨DTEventType.congestion, en0.2, en0.1⟩ : DTEvent)).type ==
              DTEventType.congestion &&
              ((⟨DTEventType.congestion, en0.2, en0.1⟩ : DTEvent)).zoneId == lid) =
              true := by
            simp [hkey]
          rw [if_pos hpass, htail]
          have hcond : ((mapGetD (en0 :: t) lid).length : ℚ) ≥ thr ∧
              lid ∈ (en0 :: t).map Prod.fst := by
            rw [hgd]
            exact ⟨hemit, hmem⟩
          rw [if_pos hcond, hgd, hkey]
        · have hf : WarehouseSimulator.congEmit thr en0 = none := by
            unfold WarehouseSimulator.congEmit
            rw [if_neg hemit]
          rw [List.filterMap_cons_none hf, htail]
          have hncond : ¬(((mapGetD (en0 :: t) lid).length : ℚ) ≥ thr ∧
              lid ∈ (en0 :: t).map Prod.fst) := by
            rw [hgd]
            exact fun hc => hemit hc.1
          rw [if_neg hncond]
      · have hgd : mapGetD (en0 :: t) lid = mapGetD t lid := by
          rw [mapGetD_cons]
          have hb : (en0.1 == lid) = false := beq_eq_false_iff_ne.2 hkey
          rw [hb]
          simp
        have hm : (lid ∈ (en0 :: t).map Prod.fst) ↔ lid ∈ t.map Prod.fst := by
          rw [List.map_cons, List.mem_cons]
          exact or_iff_right (fun h => hkey h.symm)
        by_cases hemit : ((en0.2.length : ℚ) ≥ thr)
        · have hf : WarehouseSimulator.congEmit thr en0 =
              some ⟨DTEventType.congestion, en0.2, en0.1⟩ := by
            unfold WarehouseSimulator.congEmit
            rw [if_pos hemit]
          rw [List.filterMap_cons_some hf, List.filter_cons]
          have hfail : ¬((((⟨DTEventType.congestion, en0.2, en0.1⟩ : DTEvent)).type ==
              DTEventType.congestion &&
              ((⟨DTEventType.congestion, en0.2, en0.1⟩ : DTEvent)).zoneId == lid) =
              true) := by
            simp [hkey]
          rw [if_neg hfail, ih hnd.2, hgd]
          exact (if_congr (and_congr Iff.rfl hm) rfl rfl).symm
        · have hf : WarehouseSimulator.congEmit thr en0 = none := by
            unfold WarehouseSimulator.congEmit
            rw [if_neg hemit]
          rw [List.filterMap_cons_none hf, ih hnd.2, hgd]
          exact (if_congr (and_congr Iff.rfl hm) rfl rfl).symm

theorem realize_filter_id (lid : String) (l : List (EntityState × ℕ)) :
    ((WarehouseSimulator.realize l).filter
        (fun e => e.currentLaneId == some lid)).map EntityState.id =
      ((l.map Prod.fst).filter (fun e => e.currentLaneId == some lid)).map
        EntityState.id := by
  unfold WarehouseSimulator.realize
  induction l with
  | nil => rfl
  | cons p t ih =>
      rw [List.map_cons, List.map_cons, List.filter_cons, List.filter_cons]
      by_cases hc : (p.1.currentLaneId == some lid) = true
      · have h1 : ((WarehouseSimulator.scaleT p.1 p.2).currentLaneId == some lid) =
            true := hc
        rw [if_pos h1, if_pos hc, List.map_cons, List.map_cons, ih]
        rfl
      · have h1 : ¬(((WarehouseSimulator.scaleT p.1 p.2).currentLaneId == some lid) =
            true) := hc
        rw [if_neg h1, if_neg hc]
        exact ih

theorem degList_fst (radius : ℚ) :
    ∀ (l : List (EntityState × ℕ)),
      (WarehouseSimulator.degList radius l).map Prod.fst = l.map Prod.fst := by
  have main : ∀ (N : ℕ) (l : List (EntityState × ℕ)), l.length ≤ N →
      (WarehouseSimulator.degList radius l).map Prod.fst = l.map Prod.fst := by
    intro N
    induction N with
    | zero =>
        intro l hl
        rw [List.eq_nil_of_length_eq_zero (Nat.le_zero.1 hl)]
        simp [WarehouseSimulator.degList]
    | succ N ih =>
        intro l hl
        match l with
        | [] => simp [WarehouseSimulator.degList]
        | (e, n) :: rest =>
            have hr : rest.length ≤ N := by
              simp only [List.length_cons] at hl
              omega
            have hlen : (rest.map (WarehouseSimulator.indStep radius e)).length ≤ N := by
              simpa using hr
            simp only [WarehouseSimulator.degList]
            rw [List.map_cons, List.map_cons, ih _ hlen, indStep_fst]
  intro l
  exact main l.length l le_rfl

theorem collideAll_events_type (radius : ℚ) (es : List EntityState) :
    ∀ ev ∈ (WarehouseSimulator.collideAll radius es).2,
      ev.type = DTEventType.nearCollision := by
  have hfst : (es.map (fun e => (e, (0 : ℕ)))).map Prod.fst = es := by
    rw [List.map_map]
    calc es.map (Prod.fst ∘ (fun e => (e, (0 : ℕ))))
        = es.map id := List.map_congr_left (fun e _ => rfl)
      _ = es := List.map_id es
  have hca := collideAll_realize radius (es.map (fun e => (e, 0)))
  rw [realize_zero, hfst] at hca
  intro ev hev
  rw [hca] at hev
  obtain ⟨p, _, hp⟩ := List.mem_map.1 hev
  rw [← hp]
  rfl

/-- C5: in one `checkProximityEvents` pass, for every nonempty lane id, a
congestion event naming that lane is emitted iff the number of entities
whose current lane is that lane meets or exceeds the (positive)
congestion threshold — and when emitted it is the unique congestion event
for that lane and lists exactly that lane's occupants, in entity order. -/
theorem congestion_events_iff (collisionRadius congestionThreshold : ℚ)
    (hthr : 0 < congestionThreshold) (es : List EntityState) (lid : String)
    (hlid : lid ≠ "") :
    ((WarehouseSimulator.checkProximityEvents collisionRadius congestionThreshold
        es).2.filter
      (fun ev => ev.type == DTEventType.congestion && ev.zoneId == lid)) =
      (if ((es.filter (fun e => e.currentLaneId == some lid)).length : ℚ) ≥
          congestionThreshold then
        [{ type := DTEventType.congestion,
           assetIds := (es.filter (fun e => e.currentLaneId == some lid)).map
             EntityState.id,
           zoneId := lid }]
      else []) := by
  have hfst : (es.map (fun e => (e, (0 : ℕ)))).map Prod.fst = es := by
    rw [List.map_map]
    calc es.map (Prod.fst ∘ (fun e => (e, (0 : ℕ))))
        = es.map id := List.map_congr_left (fun e _ => rfl)
      _ = es := List.map_id es
  have hca := collideAll_realize collisionRadius (es.map (fun e => (e, 0)))
  rw [realize_zero, hfst] at hca
  unfold WarehouseSimulator.checkProximityEvents
  rw [hca]
  dsimp only
  rw [List.filter_append]
  have h1 : ((WarehouseSimulator.qpairs collisionRadius es).map
      (fun p => WarehouseSimulator.mkNearCollisionEvent p.1 p.2)).filter
      (fun ev => ev.type == DTEventType.congestion && ev.zoneId == lid) = [] := by
    rw [List.filter_eq_nil_iff]
    intro ev hev
    obtain ⟨p, _, hp⟩ := List.mem_map.1 hev
    rw [← hp]
    simp [WarehouseSimulator.mkNearCollisionEvent]
  rw [h1, List.nil_append]
  have hocc : mapGetD (WarehouseSimulator.laneOccupancy
      (WarehouseSimulator.realize (WarehouseSimulator.degList collisionRadius
        (es.map (fun e => (e, 0)))))) lid =
      (es.filter (fun e => e.currentLaneId == some lid)).map EntityState.id := by
    rw [laneOccupancy_getD _ lid hlid, realize_filter_id, degList_fst, hfst]
  unfold WarehouseSimulator.congestionEvents
  rw [congestion_filter congestionThreshold lid _ (laneOccupancy_keys_nodup _)]
  rw [hocc, List.length_map]
  by_cases hmem : lid ∈ (WarehouseSimulator.laneOccupancy
      (WarehouseSimulator.realize (WarehouseSimulator.degList collisionRadius
        (es.map (fun e => (e, 0)))))).map Prod.fst
  · rw [if_congr (and_iff_left hmem) rfl rfl]
  · have hnil : mapGetD (WarehouseSimulator.laneOccupancy
        (WarehouseSimulator.realize (WarehouseSimulator.degList collisionRadius
          (es.map (fun e => (e, 0)))))) lid = [] :=
      mapGetD_eq_nil_of_not_mem _ lid hmem
    have hfil : es.filter (fun e => e.currentLaneId == some lid) = [] := by
      rw [hnil] at hocc
      exact List.map_eq_nil.1 hocc.symm
    rw [if_neg (fun hc => hmem hc.2), if_neg]
    rw [hfil]
    simpa using not_le.2 hthr

/-- C5 witness fixture: a worker on lane L1 at the origin. -/
def wCong1 : EntityState :=
  ⟨"c1", .worker, 0, 0, 0, 0, 1, some "L1", 0, [], 0, 0, none, none⟩

/-- C5 witness fixture: a worker on lane L1 ten units away. -/
def wCong2 : EntityState :=
  ⟨"c2", .worker, 10, 0, 0, 0, 1, some "L1", 0, [], 0, 0, none, none⟩

/-- C5 witness fixture: a worker on lane L1 twenty units away. -/
def wCong3 : EntityState :=
  ⟨"c3", .worker, 20, 0, 0, 0, 1, some "L1", 0, [], 0, 0, none, none⟩

/-- Witness for C5: the spec's scenario (threshold 3, three entities on
lane L1 in the same tick). -/
theorem congestion_events_iff_witness :
    ((WarehouseSimulator.checkProximityEvents 1.5 3 [wCong1, wCong2, wCong3]).2.filter
      (fun ev => ev.type == DTEventType.congestion && ev.zoneId == "L1")) =
      (if (([wCong1, wCong2, wCong3].filter
            (fun e => e.currentLaneId == some "L1")).length : ℚ) ≥ 3 then
        [{ type := DTEventType.congestion,
           assetIds := ([wCong1, wCong2, wCong3].filter
             (fun e => e.currentLaneId == some "L1")).map EntityState.id,
           zoneId := "L1" }]
      else []) :=
  congestion_events_iff 1.5 3 (by norm_num) [wCong1, wCong2, wCong3] "L1" (by decide)
